import Mathlib

/-!
# oshinko-core `clusters/clusterconfigs.go`: layered cluster configuration

A shallow embedding of `clusterconfigs.go` and theorems about it.

* Go `int` is modelled by `Int`; the only place where the machine width matters is
  `strconv.Atoi`, whose range checks are modelled with explicit 64-bit bounds.
* Go strings are modelled by `String`; the operations go through the list of characters.
* Functions that mutate a `*ClusterConfig` return the new configuration.
* Functions returning a Go `error` return `Option ClusterError` (`none` is `nil`).
* The `kclient.ConfigMapsInterface` collaborator is a function from resource names to the
  outcome of `Get`.  The iteration order of a Go map is unspecified, so the data of a
  config map is the list of its key/value pairs in the order in which `range` visits them.
-/

namespace Clusters

/-! ## Data model -/

/-- Go struct `MetricsConfig`. -/
structure MetricsConfig where
  Enable : String
  Carbon : String
  Graphite : String
deriving DecidableEq, Repr

/-- Go struct `ScorpionStareConfig`. -/
structure ScorpionStareConfig where
  Enable : String
  Image : String
deriving DecidableEq, Repr

/-- Go struct `ClusterConfig`. -/
structure ClusterConfig where
  MasterCount : Int
  WorkerCount : Int
  Name : String
  SparkMasterConfig : String
  SparkWorkerConfig : String
  Metrics : MetricsConfig
  ScorpionStare : ScorpionStareConfig
deriving DecidableEq, Repr

/-- The compiled-in `defaultConfig`. -/
def defaultConfig : ClusterConfig :=
  { MasterCount := 1
    WorkerCount := 1
    Name := "default"
    SparkMasterConfig := ""
    SparkWorkerConfig := ""
    Metrics := ⟨"", "docker.io/tmckay/carbon", "docker.io/tmckay/graphite"⟩
    ScorpionStare := ⟨"", "docker.io/tmckay/scorpionstare"⟩ }

def Defaultname : String := "default"
def failOnMissing : Bool := true
def allowMissing : Bool := false

def MasterCountMustBeOne : String := "cluster configuration must have a masterCount of 1"
def WorkerCountMustBeAtLeastOne : String :=
  "cluster configuration may not have a workerCount less than 1"

/-- The format `ErrorWhileProcessing`, applied to its two string arguments
(`fmt.Sprintf` with two `%s` verbs). -/
def ErrorWhileProcessing (a b : String) : String := "'" ++ a ++ "', " ++ b

/-- The format `NamedConfigDoesNotExist`, applied to its string argument. -/
def NamedConfigDoesNotExist (a : String) : String := "named config '" ++ a ++ "' does not exist"

/-- The two error codes that `clusterconfigs.go` passes to `NewClusterError`. -/
inductive ErrCode where
  | ClusterConfigCode
  | ClientOperationCode
deriving DecidableEq, Repr

/-- A cluster error: a message and a code. -/
structure ClusterError where
  msg : String
  code : ErrCode
deriving DecidableEq, Repr

def NewClusterError (msg : String) (code : ErrCode) : ClusterError := ⟨msg, code⟩

/-! ## Go standard library: `strings.Trim`, `strings.Index`, `strconv.Atoi` -/

/-- Drop the trailing elements that satisfy `p`. -/
def dropTrailing (p : Char → Bool) (l : List Char) : List Char :=
  (l.reverse.dropWhile p).reverse

/-- Go `strings.Trim(s, cutset)`: all leading and all trailing characters contained in
`cutset` are removed. -/
def Trim (s cutset : String) : String :=
  ⟨(dropTrailing (fun c => cutset.data.contains c) s.data).dropWhile
      (fun c => cutset.data.contains c)⟩

/-- Whether `sub` occurs in `l` as a contiguous block. -/
def hasInfix (sub : List Char) : List Char → Bool
  | [] => sub.isEmpty
  | c :: cs => sub.isPrefixOf (c :: cs) || hasInfix sub cs

/-- Go `strings.Index(s, sub) != -1`. -/
def containsStr (s sub : String) : Bool := hasInfix sub.data s.data

/-- The two kinds of `strconv.NumError`. -/
inductive NumError where
  | ErrSyntax
  | ErrRange
deriving DecidableEq, Repr

/-- Bit size of Go `int` (`strconv.IntSize`) on the 64-bit platforms the tool is built for. -/
def IntSize : Nat := 64

def isDecDigit (c : Char) : Bool := decide (48 ≤ c.toNat) && decide (c.toNat ≤ 57)

/-- The digit loop of `strconv.ParseUint(s, 10, 0)`, with accumulator `n`:
a non-digit is a syntax error (value 0); an overflow of the unsigned range is a range
error (value `maxVal`) and is reported as soon as it is reached. -/
def parseUintLoop : List Char → Nat → Nat × Option NumError
  | [], n => (n, none)
  | d :: ds, n =>
    if isDecDigit d then
      if n ≥ (2 ^ IntSize - 1) / 10 + 1 then (2 ^ IntSize - 1, some NumError.ErrRange)
      else if n * 10 + (d.toNat - 48) > 2 ^ IntSize - 1 then
        (2 ^ IntSize - 1, some NumError.ErrRange)
      else parseUintLoop ds (n * 10 + (d.toNat - 48))
    else (0, some NumError.ErrSyntax)

/-- Go `strconv.ParseUint(s, 10, 0)`. -/
def ParseUint (s : List Char) : Nat × Option NumError :=
  match s with
  | [] => (0, some NumError.ErrSyntax)
  | _ => parseUintLoop s 0

/-- The part of `strconv.ParseInt` that follows the removal of the sign. -/
def parseIntSigned (neg : Bool) (s : List Char) : Int × Option NumError :=
  match ParseUint s with
  | (_, some NumError.ErrSyntax) => (0, some NumError.ErrSyntax)
  | (un, _) =>
    if !neg && decide (un ≥ 2 ^ (IntSize - 1)) then
      ((2 : Int) ^ (IntSize - 1) - 1, some NumError.ErrRange)
    else if neg && decide (un > 2 ^ (IntSize - 1)) then
      (-(2 : Int) ^ (IntSize - 1), some NumError.ErrRange)
    else (if neg then -(un : Int) else (un : Int), none)

/-- Go `strconv.Atoi(s)`, that is `ParseInt(s, 10, 0)` converted to `int`: an optional
sign, then at least one decimal digit and nothing else; the value must fit in an `int`.
On a syntax error the value is 0, on a range error it is the nearest bound. -/
def Atoi (s : String) : Int × Option NumError :=
  match s.data with
  | [] => (0, some NumError.ErrSyntax)
  | c :: cs =>
    if c = '+' then parseIntSigned false cs
    else if c = '-' then parseIntSigned true cs
    else parseIntSigned false (c :: cs)

/-! ## The store collaborator -/

/-- Outcome of `cm.Get(name)`: the pointer to a config map, which may be `nil`, and the
error, which may be `nil`, with its message.  Go returns the two independently of each
other.  A config map is represented by its `Data`, in iteration order. -/
structure GetResult where
  cmap : Option (List (String × String))
  err : Option String
deriving DecidableEq, Repr

/-- A `Get` that succeeds and returns the given pointer to a config map. -/
def GetResult.ok (cmap : Option (List (String × String))) : GetResult := ⟨cmap, none⟩

/-- A `Get` that fails with the given message and returns, as the Kubernetes client does,
a freshly allocated config map without data together with the error. -/
def GetResult.failed (msg : String) : GetResult := ⟨some [], some msg⟩

/-- The `kclient.ConfigMapsInterface`, reduced to its `Get` method. -/
abbrev ConfigMaps := String → GetResult

/-! ## The functions of `clusterconfigs.go` -/

def GetDefaultConfig : ClusterConfig := defaultConfig

def assignConfig (res : ClusterConfig) (src : ClusterConfig) : ClusterConfig :=
  let res := if src.MasterCount ≠ 0 then { res with MasterCount := src.MasterCount } else res
  let res := if src.WorkerCount ≠ 0 then { res with WorkerCount := src.WorkerCount } else res
  let res := if src.SparkMasterConfig ≠ "" then
    { res with SparkMasterConfig := src.SparkMasterConfig } else res
  let res := if src.SparkWorkerConfig ≠ "" then
    { res with SparkWorkerConfig := src.SparkWorkerConfig } else res
  let res := if src.Metrics.Enable ≠ "" then
    { res with Metrics := { res.Metrics with Enable := src.Metrics.Enable } } else res
  let res := if src.Metrics.Carbon ≠ "" then
    { res with Metrics := { res.Metrics with Carbon := src.Metrics.Carbon } } else res
  let res := if src.Metrics.Graphite ≠ "" then
    { res with Metrics := { res.Metrics with Graphite := src.Metrics.Graphite } } else res
  let res := if src.ScorpionStare.Enable ≠ "" then
    { res with ScorpionStare := { res.ScorpionStare with Enable := src.ScorpionStare.Enable } }
    else res
  let res := if src.ScorpionStare.Image ≠ "" then
    { res with ScorpionStare := { res.ScorpionStare with Image := src.ScorpionStare.Image } }
    else res
  res

def checkConfiguration (config : ClusterConfig) : Option ClusterError :=
  if config.MasterCount ≠ 1 then
    some (NewClusterError MasterCountMustBeOne ErrCode.ClusterConfigCode)
  else if config.WorkerCount < 1 then
    some (NewClusterError WorkerCountMustBeAtLeastOne ErrCode.ClusterConfigCode)
  else none

def getInt (value configmapname : String) : Int × Option ClusterError :=
  match Atoi (Trim value "\n") with
  | (i, some _) =>
    (i, some (NewClusterError (ErrorWhileProcessing configmapname "expected integer")
      ErrCode.ClusterConfigCode))
  | (i, none) => (i, none)

def process (config : ClusterConfig) (name value configmapname : String) :
    ClusterConfig × Option ClusterError :=
  if name = "mastercount" then
    let r := getInt value (configmapname ++ ".mastercount")
    ({ config with MasterCount := r.1 }, r.2)
  else if name = "workercount" then
    let r := getInt value (configmapname ++ ".workercount")
    ({ config with WorkerCount := r.1 }, r.2)
  else if name = "sparkmasterconfig" then
    ({ config with SparkMasterConfig := Trim value "\n" }, none)
  else if name = "sparkworkerconfig" then
    ({ config with SparkWorkerConfig := Trim value "\n" }, none)
  else if name = "metrics.enable" then
    ({ config with Metrics := { config.Metrics with Enable := Trim value "\n" } }, none)
  else if name = "metrics.carbon" then
    ({ config with Metrics := { config.Metrics with Carbon := Trim value "\n" } }, none)
  else if name = "metrics.graphite" then
    ({ config with Metrics := { config.Metrics with Graphite := Trim value "\n" } }, none)
  else if name = "scorpionstare.enable" then
    ({ config with ScorpionStare := { config.ScorpionStare with Enable := Trim value "\n" } },
      none)
  else if name = "scorpionstare.image" then
    ({ config with ScorpionStare := { config.ScorpionStare with Image := Trim value "\n" } },
      none)
  else (config, none)

/-- The loop `for n, v := range cmap.Data` of `readConfig`: `process` is applied to the
pairs in iteration order and the loop is left at the first error. -/
def processAll (res : ClusterConfig) (name : String) :
    List (String × String) → ClusterConfig × Option ClusterError
  | [] => (res, none)
  | (n, v) :: rest =>
    match process res n v name with
    | (res1, some e) => (res1, some e)
    | (res1, none) => processAll res1 name rest

/-- The block `if err != nil` of `readConfig`, which rewrites the error of `Get`: a
not-found error is cleared when a missing resource is allowed and becomes the
named-config error otherwise; any other error becomes a client-operation error. -/
def rewriteGetError (name : String) (failOnMissing : Bool) :
    Option String → Option ClusterError
  | none => none
  | some msg =>
    if containsStr msg "not found" then
      if !failOnMissing then none
      else some (NewClusterError (NamedConfigDoesNotExist name) ErrCode.ClusterConfigCode)
    else some (NewClusterError msg ErrCode.ClientOperationCode)

def readConfig (name : String) (res : ClusterConfig) (failOnMissing : Bool)
    (cm : ConfigMaps) : ClusterConfig × Option ClusterError :=
  match rewriteGetError name failOnMissing (cm name).err, (cm name).cmap with
  | some e, _ => (res, some e)
  | none, none => (res, none)
  | none, some data => processAll res name data

def loadConfig (name : String) (cm : ConfigMaps) : ClusterConfig × Option ClusterError :=
  match readConfig Defaultname defaultConfig allowMissing cm with
  | (res, some e) => (res, some e)
  | (res, none) =>
    if name ≠ "" ∧ name ≠ Defaultname then readConfig name res failOnMissing cm
    else (res, none)

/-- The target resource name of `GetClusterConfig`: `config.Name` when an explicit
configuration is given, the empty string otherwise. -/
def targetName (config : Option ClusterConfig) : String :=
  match config with
  | some c => c.Name
  | none => ""

/-- The step `if config != nil { assignConfig(&res, *config) }` of `GetClusterConfig`. -/
def applyExplicit (res : ClusterConfig) (config : Option ClusterConfig) : ClusterConfig :=
  match config with
  | some c => assignConfig res c
  | none => res

def GetClusterConfig (config : Option ClusterConfig) (cm : ConfigMaps) :
    ClusterConfig × Option ClusterError :=
  match loadConfig (targetName config) cm with
  | (res, some e) => (res, some e)
  | (res, none) => (applyExplicit res config, checkConfiguration (applyExplicit res config))

/-! ## Example stores -/

/-- A store without any resource: every `Get` reports not-found. -/
def emptyStore : ConfigMaps := fun n => GetResult.failed ("configmaps \"" ++ n ++ "\" not found")

/-- The store of the examples: `default` holds `workercount=3`, `foo` holds `workercount=5`. -/
def fooStore : ConfigMaps := fun n =>
  if n = "default" then GetResult.ok (some [("workercount", "3")])
  else if n = "foo" then GetResult.ok (some [("workercount", "5")])
  else GetResult.failed ("configmaps \"" ++ n ++ "\" not found")

/-- A configuration with every field zero or empty except the name. -/
def named (n : String) : ClusterConfig :=
  { MasterCount := 0, WorkerCount := 0, Name := n, SparkMasterConfig := "",
    SparkWorkerConfig := "", Metrics := ⟨"", "", ""⟩, ScorpionStare := ⟨"", ""⟩ }

/-- The override of the examples: name `foo`, `WorkerCount` 9, everything else unset. -/
def fooNine : ClusterConfig := { named "foo" with WorkerCount := 9 }

/-- A store whose `default` resource holds `workercount=0` and a `metrics.carbon` value
made of newlines only. -/
def zeroStore : ConfigMaps := fun n =>
  if n = "default" then GetResult.ok (some [("workercount", "0"), ("metrics.carbon", "\n\n")])
  else GetResult.failed ("configmaps \"" ++ n ++ "\" not found")

/-- A store whose `default` resource holds `mastercount=abc` only. -/
def abcStore : ConfigMaps := fun n =>
  if n = "default" then GetResult.ok (some [("mastercount", "abc")])
  else GetResult.failed ("configmaps \"" ++ n ++ "\" not found")

/-- A store whose `default` resource holds `mastercount=abc` and a `workercount` that does
not parse either, visited first. -/
def badStore : ConfigMaps := fun n =>
  if n = "default" then GetResult.ok (some [("workercount", "x"), ("mastercount", "abc")])
  else GetResult.failed ("configmaps \"" ++ n ++ "\" not found")

/-- A store whose `Get` on `default` reports not-found and nevertheless returns a config
map that holds `workercount=7`. -/
def staleStore : ConfigMaps := fun n =>
  if n = "default" then ⟨some [("workercount", "7")], some "configmaps \"default\" not found"⟩
  else GetResult.failed ("configmaps \"" ++ n ++ "\" not found")

/-- A store in which every `Get` fails for a reason other than not-found. -/
def downStore : ConfigMaps := fun _ => GetResult.failed "connection refused"

/-- The store `fooStore` with keys that `process` does not recognize added to both of its
resources. -/
def fooStoreExtra : ConfigMaps := fun n =>
  if n = "default" then GetResult.ok (some [("sparkimage", "img"), ("workercount", "3")])
  else if n = "foo" then GetResult.ok (some [("workercount", "5"), ("mastercount.max", "x")])
  else GetResult.failed ("configmaps \"" ++ n ++ "\" not found")

/-! ## Vocabulary of the statements -/

/-- A base-10 integer in the sense of `strconv`: an optional sign followed by one or more
decimal digits and nothing else. -/
def isBase10Integer (s : String) : Bool :=
  match s.data with
  | [] => false
  | c :: cs =>
    if c = '+' ∨ c = '-' then !cs.isEmpty && cs.all isDecDigit
    else (c :: cs).all isDecDigit

/-- Stated from the specification, for comparison with `Trim`: the value with its trailing
newline characters removed and nothing else changed. -/
def trimTrailingNewlines (s : String) : String :=
  ⟨dropTrailing (fun c => c = '\n') s.data⟩

/-- The value of a configuration field: a count or a string. -/
inductive FieldValue where
  | int (i : Int)
  | str (s : String)
deriving DecidableEq, Repr

/-- The field of a configuration that a recognized key of a config map stands for;
`none` for every other key. -/
def fieldOf (key : String) (c : ClusterConfig) : Option FieldValue :=
  if key = "mastercount" then some (FieldValue.int c.MasterCount)
  else if key = "workercount" then some (FieldValue.int c.WorkerCount)
  else if key = "sparkmasterconfig" then some (FieldValue.str c.SparkMasterConfig)
  else if key = "sparkworkerconfig" then some (FieldValue.str c.SparkWorkerConfig)
  else if key = "metrics.enable" then some (FieldValue.str c.Metrics.Enable)
  else if key = "metrics.carbon" then some (FieldValue.str c.Metrics.Carbon)
  else if key = "metrics.graphite" then some (FieldValue.str c.Metrics.Graphite)
  else if key = "scorpionstare.enable" then some (FieldValue.str c.ScorpionStare.Enable)
  else if key = "scorpionstare.image" then some (FieldValue.str c.ScorpionStare.Image)
  else none

/-- The trimmed and, for the two counts, parsed value of a stored key/value pair;
`none` for an unrecognized key. -/
def storedValue (key value : String) : Option FieldValue :=
  if key = "mastercount" ∨ key = "workercount" then
    some (FieldValue.int (Atoi (Trim value "\n")).1)
  else if key = "sparkmasterconfig" ∨ key = "sparkworkerconfig" ∨ key = "metrics.enable" ∨
      key = "metrics.carbon" ∨ key = "metrics.graphite" ∨ key = "scorpionstare.enable" ∨
      key = "scorpionstare.image" then
    some (FieldValue.str (Trim value "\n"))
  else none

/-- The nine keys that `process` recognizes. -/
def recognizedKeys : List String :=
  ["mastercount", "workercount", "sparkmasterconfig", "sparkworkerconfig", "metrics.enable",
    "metrics.carbon", "metrics.graphite", "scorpionstare.enable", "scorpionstare.image"]

/-- The outcome of a `Get` with the unrecognized keys of the config map left out. -/
def stripUnrecognized (r : GetResult) : GetResult :=
  { r with
    cmap := r.cmap.map (fun data => data.filter (fun kv => decide (kv.1 ∈ recognizedKeys))) }

/-- Stated from the claim: the base-10 representation of an integer, a minus sign for a
negative number followed by the decimal digits of the absolute value. -/
def decimalRepr (n : Int) : String :=
  if n < 0 then "-" ++ Nat.repr n.natAbs else Nat.repr n.natAbs

/-- The value that the digit loop accumulates. -/
def digitsValue (ds : List Char) (n : Nat) : Nat :=
  ds.foldl (fun a d => a * 10 + (d.toNat - 48)) n

/-! ## Basic facts about the layers -/

/-- A tolerated not-found error leaves the loop to run over the config map that came with
the error. -/
theorem readConfig_notFound_allow (name : String) (res : ClusterConfig)
    (cm : ConfigMaps) (msg : String) (herr : (cm name).err = some msg)
    (hnf : containsStr msg "not found" = true) :
    readConfig name res allowMissing cm =
      match (cm name).cmap with
      | none => (res, none)
      | some data => processAll res name data := by
  unfold readConfig
  rw [herr]
  simp only [rewriteGetError, hnf, allowMissing, if_true, Bool.not_false]
  cases (cm name).cmap <;> rfl

theorem readConfig_failed_notFound_allow (name : String) (res : ClusterConfig)
    (cm : ConfigMaps) (msg : String) (herr : (cm name).err = some msg)
    (hnf : containsStr msg "not found" = true)
    (hdata : (cm name).cmap = none ∨ (cm name).cmap = some []) :
    readConfig name res allowMissing cm = (res, none) := by
  rw [readConfig_notFound_allow name res cm msg herr hnf]
  rcases hdata with h | h
  · rw [h]
  · rw [h]
    rfl

theorem readConfig_failed_notFound_fail (name : String) (res : ClusterConfig)
    (cm : ConfigMaps) (msg : String) (herr : (cm name).err = some msg)
    (hnf : containsStr msg "not found" = true) :
    readConfig name res failOnMissing cm =
      (res, some (NewClusterError (NamedConfigDoesNotExist name) ErrCode.ClusterConfigCode)) := by
  unfold readConfig
  rw [herr]
  simp [rewriteGetError, hnf, failOnMissing]

theorem readConfig_failed_other (name : String) (res : ClusterConfig) (b : Bool)
    (cm : ConfigMaps) (msg : String) (herr : (cm name).err = some msg)
    (hnf : containsStr msg "not found" = false) :
    readConfig name res b cm = (res, some (NewClusterError msg ErrCode.ClientOperationCode)) := by
  unfold readConfig
  rw [herr]
  simp [rewriteGetError, hnf]

/-- The outcome of `readConfig` in terms of the rewritten error and the config map. -/
theorem readConfig_cases (name : String) (res : ClusterConfig) (b : Bool) (cm : ConfigMaps) :
    (∃ e, readConfig name res b cm = (res, some e)) ∨
      readConfig name res b cm = (res, none) ∨
      (∃ data, (cm name).cmap = some data ∧
        readConfig name res b cm = processAll res name data) := by
  unfold readConfig
  cases rewriteGetError name b (cm name).err with
  | some e => exact Or.inl ⟨e, rfl⟩
  | none =>
    cases hc : (cm name).cmap with
    | none => exact Or.inr (Or.inl rfl)
    | some data => exact Or.inr (Or.inr ⟨data, rfl, rfl⟩)

theorem GetClusterConfig_of_load_ok (config : Option ClusterConfig) (cm : ConfigMaps)
    (h : (loadConfig (targetName config) cm).2 = none) :
    GetClusterConfig config cm =
      (applyExplicit (loadConfig (targetName config) cm).1 config,
        checkConfiguration (applyExplicit (loadConfig (targetName config) cm).1 config)) := by
  unfold GetClusterConfig
  rcases hl : loadConfig (targetName config) cm with ⟨res, e⟩
  rw [hl] at h
  simp only at h
  subst h
  rfl

theorem GetClusterConfig_of_load_err (config : Option ClusterConfig) (cm : ConfigMaps)
    (e : ClusterError) (h : (loadConfig (targetName config) cm).2 = some e) :
    GetClusterConfig config cm = ((loadConfig (targetName config) cm).1, some e) := by
  unfold GetClusterConfig
  rcases hl : loadConfig (targetName config) cm with ⟨res, e1⟩
  rw [hl] at h
  simp only at h
  subst h
  rfl

theorem load_ok_of_GetClusterConfig_ok (config : Option ClusterConfig) (cm : ConfigMaps)
    (h : (GetClusterConfig config cm).2 = none) :
    (loadConfig (targetName config) cm).2 = none := by
  cases hl : (loadConfig (targetName config) cm).2 with
  | none => rfl
  | some e =>
    rw [GetClusterConfig_of_load_err config cm e hl] at h
    simp at h

theorem checkConfiguration_eq_none_iff (c : ClusterConfig) :
    checkConfiguration c = none ↔ c.MasterCount = 1 ∧ 1 ≤ c.WorkerCount := by
  unfold checkConfiguration
  by_cases h1 : c.MasterCount = 1
  · by_cases h2 : c.WorkerCount < 1
    · simp [h1, h2]
    · simp [h1, h2]; omega
  · simp [h1]

/-- Field-by-field description of `assignConfig`. -/
theorem assignConfig_eq (res src : ClusterConfig) :
    assignConfig res src =
      { MasterCount := if src.MasterCount ≠ 0 then src.MasterCount else res.MasterCount
        WorkerCount := if src.WorkerCount ≠ 0 then src.WorkerCount else res.WorkerCount
        Name := res.Name
        SparkMasterConfig :=
          if src.SparkMasterConfig ≠ "" then src.SparkMasterConfig else res.SparkMasterConfig
        SparkWorkerConfig :=
          if src.SparkWorkerConfig ≠ "" then src.SparkWorkerConfig else res.SparkWorkerConfig
        Metrics :=
          { Enable := if src.Metrics.Enable ≠ "" then src.Metrics.Enable else res.Metrics.Enable
            Carbon := if src.Metrics.Carbon ≠ "" then src.Metrics.Carbon else res.Metrics.Carbon
            Graphite :=
              if src.Metrics.Graphite ≠ "" then src.Metrics.Graphite else res.Metrics.Graphite }
        ScorpionStare :=
          { Enable := if src.ScorpionStare.Enable ≠ "" then src.ScorpionStare.Enable
              else res.ScorpionStare.Enable
            Image := if src.ScorpionStare.Image ≠ "" then src.ScorpionStare.Image
              else res.ScorpionStare.Image } } := by
  unfold assignConfig
  by_cases h1 : src.MasterCount = 0 <;> by_cases h2 : src.WorkerCount = 0 <;>
  by_cases h3 : src.SparkMasterConfig = "" <;> by_cases h4 : src.SparkWorkerConfig = "" <;>
  by_cases h5 : src.Metrics.Enable = "" <;> by_cases h6 : src.Metrics.Carbon = "" <;>
  by_cases h7 : src.Metrics.Graphite = "" <;> by_cases h8 : src.ScorpionStare.Enable = "" <;>
  by_cases h9 : src.ScorpionStare.Image = "" <;>
  simp [h1, h2, h3, h4, h5, h6, h7, h8, h9]

/-- The result of `GetClusterConfig` with an explicit configuration is the loaded
configuration, with `assignConfig` applied when loading succeeded. -/
theorem GetClusterConfig_some_fst (c : ClusterConfig) (cm : ConfigMaps) :
    (GetClusterConfig (some c) cm).1 = (loadConfig c.Name cm).1 ∨
      ((loadConfig c.Name cm).2 = none ∧
        (GetClusterConfig (some c) cm).1 = assignConfig (loadConfig c.Name cm).1 c) := by
  cases hl : (loadConfig (targetName (some c)) cm).2 with
  | none =>
    right
    exact ⟨hl, by rw [GetClusterConfig_of_load_ok (some c) cm hl]; rfl⟩
  | some e =>
    left
    rw [GetClusterConfig_of_load_err (some c) cm e hl]
    rfl

/-! ## `strings.Trim` and `strconv.Atoi` -/

theorem newline_cutset (c : Char) : ("\n".data.contains c) = true ↔ c = '\n' := by
  have h : "\n".data = ['\n'] := rfl
  rw [h]
  simp

/-- What `dropTrailing` followed by `dropWhile` leaves: the input is the result between two
blocks of dropped characters, and the result neither starts nor ends with such a
character. -/
theorem trim_list_spec (p : Char → Bool) (l : List Char) :
    ∃ a b : List Char, l = a ++ (dropTrailing p l).dropWhile p ++ b ∧
      (∀ x ∈ a, p x = true) ∧ (∀ x ∈ b, p x = true) ∧
      (∀ x, ((dropTrailing p l).dropWhile p).head? = some x → p x = false) ∧
      (∀ x, ((dropTrailing p l).dropWhile p).getLast? = some x → p x = false) := by
  have hm : dropTrailing p l = l.rdropWhile p := rfl
  refine ⟨(dropTrailing p l).takeWhile p, (l.reverse.takeWhile p).reverse, ?_, ?_, ?_, ?_, ?_⟩
  · rw [List.takeWhile_append_dropWhile]
    have h := List.takeWhile_append_dropWhile p l.reverse
    have h2 := congrArg List.reverse h
    simp only [List.reverse_append, List.reverse_reverse] at h2
    exact h2.symm
  · intro x hx
    exact List.mem_takeWhile_imp hx
  · intro x hx
    exact List.mem_takeWhile_imp (List.mem_reverse.1 hx)
  · intro x hx
    have h := List.head?_dropWhile_not p (dropTrailing p l)
    rw [hx] at h
    exact h
  · intro x hx
    have hne : (dropTrailing p l).dropWhile p ≠ [] := by
      intro h0
      rw [h0] at hx
      simp at hx
    have hsuf : (dropTrailing p l).dropWhile p <:+ dropTrailing p l := List.dropWhile_suffix p
    have hne2 : dropTrailing p l ≠ [] := by
      intro h0
      rw [h0] at hne
      simp at hne
    have hlast := hsuf.getLast hne
    have hx2 : ((dropTrailing p l).dropWhile p).getLast hne = x := by
      rw [List.getLast?_eq_getLast _ hne] at hx
      exact Option.some.inj hx
    have hnot : ¬ p ((l.rdropWhile p).getLast (by rw [← hm]; exact hne2)) = true :=
      List.rdropWhile_last_not p l _
    have h3 : (l.rdropWhile p).getLast (by rw [← hm]; exact hne2) = x := by
      rw [← hx2, hlast]
      rfl
    rw [h3] at hnot
    simpa using hnot

/-- The value kept by `Trim v "\n"`: `v` is the kept value between a block of leading and
a block of trailing newlines, and the kept value neither starts nor ends with a newline. -/
theorem Trim_newline_spec (v : String) :
    ∃ a b : List Char, v.data = a ++ (Trim v "\n").data ++ b ∧
      (∀ x ∈ a, x = '\n') ∧ (∀ x ∈ b, x = '\n') ∧
      (Trim v "\n").data.head? ≠ some '\n' ∧ (Trim v "\n").data.getLast? ≠ some '\n' := by
  obtain ⟨a, b, h1, h2, h3, h4, h5⟩ :=
    trim_list_spec (fun c => "\n".data.contains c) v.data
  refine ⟨a, b, h1, ?_, ?_, ?_, ?_⟩
  · intro x hx
    exact (newline_cutset x).1 (h2 x hx)
  · intro x hx
    exact (newline_cutset x).1 (h3 x hx)
  · intro h
    have := h4 _ h
    rw [(newline_cutset _).2 rfl] at this
    exact Bool.noConfusion this
  · intro h
    have := h5 _ h
    rw [(newline_cutset _).2 rfl] at this
    exact Bool.noConfusion this

theorem parseUintLoop_ok_digits (l : List Char) :
    ∀ n, (parseUintLoop l n).2 = none → l.all isDecDigit = true := by
  induction l with
  | nil => intro n _; rfl
  | cons d ds ih =>
    intro n h
    unfold parseUintLoop at h
    by_cases hd : isDecDigit d = true
    · rw [if_pos hd] at h
      split_ifs at h with h1 h2
      simp [hd, ih _ h]
    · rw [if_neg hd] at h
      simp at h

theorem parseUintLoop_range_value (l : List Char) :
    ∀ n u, parseUintLoop l n = (u, some NumError.ErrRange) → u = 2 ^ IntSize - 1 := by
  induction l with
  | nil => intro n u h; simp [parseUintLoop] at h
  | cons d ds ih =>
    intro n u h
    unfold parseUintLoop at h
    split_ifs at h with h0 h1 h2
    · exact (Prod.mk.inj h).1.symm
    · exact (Prod.mk.inj h).1.symm
    · exact ih _ u h
    · simp at h

theorem parseIntSigned_ok (neg : Bool) (l : List Char)
    (h : (parseIntSigned neg l).2 = none) : l ≠ [] ∧ l.all isDecDigit = true := by
  unfold parseIntSigned at h
  cases l with
  | nil => simp [ParseUint] at h
  | cons c cs =>
    refine ⟨by simp, ?_⟩
    have hP : ParseUint (c :: cs) = parseUintLoop (c :: cs) 0 := rfl
    rw [hP] at h
    rcases hr : parseUintLoop (c :: cs) 0 with ⟨u, e⟩
    rw [hr] at h
    cases e with
    | none => exact parseUintLoop_ok_digits _ 0 (by rw [hr])
    | some e =>
      cases e with
      | ErrSyntax => simp at h
      | ErrRange =>
        have hu := parseUintLoop_range_value _ _ _ hr
        subst hu
        cases neg <;> simp [IntSize] at h

theorem Atoi_ok_isBase10Integer (s : String) (h : (Atoi s).2 = none) :
    isBase10Integer s = true := by
  unfold Atoi at h
  unfold isBase10Integer
  cases hs : s.data with
  | nil => rw [hs] at h; simp at h
  | cons c cs =>
    rw [hs] at h
    simp only at h ⊢
    by_cases hp : c = '+'
    · rw [if_pos hp] at h
      have := parseIntSigned_ok _ _ h
      rw [if_pos (Or.inl hp)]
      cases cs with
      | nil => exact absurd rfl this.1
      | cons x xs => simpa using this.2
    · rw [if_neg hp] at h
      by_cases hm : c = '-'
      · rw [if_pos hm] at h
        have := parseIntSigned_ok _ _ h
        rw [if_pos (Or.inr hm)]
        cases cs with
        | nil => exact absurd rfl this.1
        | cons x xs => simpa using this.2
      · rw [if_neg hm] at h
        have := parseIntSigned_ok _ _ h
        rw [if_neg (by simp [hp, hm])]
        exact this.2

theorem getInt_fst (value name : String) : (getInt value name).1 = (Atoi (Trim value "\n")).1 := by
  unfold getInt
  rcases Atoi (Trim value "\n") with ⟨i, e⟩
  cases e <;> rfl

theorem getInt_snd (value name : String) :
    (getInt value name).2 =
      if (Atoi (Trim value "\n")).2 = none then none
      else some ⟨"'" ++ name ++ "', expected integer", ErrCode.ClusterConfigCode⟩ := by
  unfold getInt
  rcases Atoi (Trim value "\n") with ⟨i, e⟩
  cases e with
  | none => rfl
  | some e =>
    simp only [NewClusterError, ErrorWhileProcessing]
    rw [String.append_assoc]
    simp

/-! ## `process` and the loop of `readConfig` -/

/-- The error of `process` depends on the key, the value and the resource name only. -/
theorem process_snd (c : ClusterConfig) (k v name : String) :
    (process c k v name).2 =
      if k = "mastercount" then (getInt v (name ++ ".mastercount")).2
      else if k = "workercount" then (getInt v (name ++ ".workercount")).2
      else none := by
  unfold process
  split_ifs <;> rfl

theorem process_snd_indep (c c1 : ClusterConfig) (k v name : String) :
    (process c k v name).2 = (process c1 k v name).2 := by
  rw [process_snd, process_snd]

/-- After `process`, the field that the key stands for holds the stored value. -/
theorem process_fieldOf_same (c : ClusterConfig) (k v name : String) :
    fieldOf k (process c k v name).1 = storedValue k v := by
  unfold process
  split_ifs with h1 h2 h3 h4 h5 h6 h7 h8 h9
  · subst h1; simp [fieldOf, storedValue, getInt_fst]
  · subst h2; simp [fieldOf, storedValue, getInt_fst]
  · subst h3; simp [fieldOf, storedValue]
  · subst h4; simp [fieldOf, storedValue]
  · subst h5; simp [fieldOf, storedValue]
  · subst h6; simp [fieldOf, storedValue]
  · subst h7; simp [fieldOf, storedValue]
  · subst h8; simp [fieldOf, storedValue]
  · subst h9; simp [fieldOf, storedValue]
  · simp [fieldOf, storedValue, h1, h2, h3, h4, h5, h6, h7, h8, h9]

/-- The fields that other keys stand for are left alone by `process`. -/
theorem process_fieldOf_other (c : ClusterConfig) (k k1 v name : String) (hk : k1 ≠ k) :
    fieldOf k1 (process c k v name).1 = fieldOf k1 c := by
  unfold process
  split_ifs with h1 h2 h3 h4 h5 h6 h7 h8 h9
  · subst h1; simp [fieldOf, hk]
  · subst h2; simp [fieldOf, hk]
  · subst h3; simp [fieldOf, hk]
  · subst h4; simp [fieldOf, hk]
  · subst h5; simp [fieldOf, hk]
  · subst h6; simp [fieldOf, hk]
  · subst h7; simp [fieldOf, hk]
  · subst h8; simp [fieldOf, hk]
  · subst h9; simp [fieldOf, hk]
  · rfl

/-- When some pair of the data makes `process` fail, the loop returns the error of one of
the failing pairs. -/
theorem processAll_error_mem (name : String) (data : List (String × String)) :
    ∀ res, (∃ kv ∈ data, (process defaultConfig kv.1 kv.2 name).2 ≠ none) →
      ∃ kv ∈ data, (processAll res name data).2 = (process defaultConfig kv.1 kv.2 name).2 ∧
        (process defaultConfig kv.1 kv.2 name).2 ≠ none := by
  induction data with
  | nil => intro res h; simp at h
  | cons kv rest ih =>
    intro res h
    obtain ⟨k, v⟩ := kv
    unfold processAll
    rcases hp : process res k v name with ⟨res1, e⟩
    have he : (process defaultConfig k v name).2 = e := by
      rw [process_snd_indep defaultConfig res, hp]
    cases e with
    | some e =>
      exact ⟨(k, v), List.mem_cons_self _ _, by simp [he], by simp [he]⟩
    | none =>
      obtain ⟨kv1, hmem, hne⟩ := h
      have hmem1 : kv1 ∈ rest := by
        rcases List.mem_cons.1 hmem with h0 | h0
        · subst h0
          exact absurd he hne
        · exact h0
      obtain ⟨kv2, hm2, h2, h3⟩ := ih res1 ⟨kv1, hmem1, hne⟩
      exact ⟨kv2, List.mem_cons_of_mem _ hm2, h2, h3⟩

/-- When every pair of the data is processed without error, the loop returns no error,
every key of the data (keys being distinct) determines its field, and the fields of the
other keys are untouched. -/
theorem processAll_ok (name : String) (data : List (String × String)) :
    ∀ res, (∀ kv ∈ data, (process defaultConfig kv.1 kv.2 name).2 = none) →
      (data.map Prod.fst).Nodup →
      (processAll res name data).2 = none ∧
      (∀ kv ∈ data, fieldOf kv.1 (processAll res name data).1 = storedValue kv.1 kv.2) ∧
      (∀ k, k ∉ data.map Prod.fst → fieldOf k (processAll res name data).1 = fieldOf k res) := by
  induction data with
  | nil =>
    intro res _ _
    simp [processAll]
  | cons kv rest ih =>
    intro res hok hnd
    obtain ⟨k, v⟩ := kv
    have hk : k ∉ rest.map Prod.fst := (List.nodup_cons.1 hnd).1
    have hnd1 : (rest.map Prod.fst).Nodup := (List.nodup_cons.1 hnd).2
    have hok1 : ∀ kv ∈ rest, (process defaultConfig kv.1 kv.2 name).2 = none :=
      fun kv h => hok kv (List.mem_cons_of_mem _ h)
    have he : (process res k v name).2 = none := by
      rw [process_snd_indep res defaultConfig]
      exact hok (k, v) (List.mem_cons_self _ _)
    have hstep : processAll res name ((k, v) :: rest) =
        processAll (process res k v name).1 name rest := by
      conv_lhs => unfold processAll
      rcases hp : process res k v name with ⟨res1, e⟩
      rw [hp] at he
      simp only at he
      subst he
      rfl
    rw [hstep]
    obtain ⟨h1, h2, h3⟩ := ih (process res k v name).1 hok1 hnd1
    refine ⟨h1, ?_, ?_⟩
    · intro kv hmem
      rcases List.mem_cons.1 hmem with h0 | h0
      · subst h0
        rw [h3 k hk]
        exact process_fieldOf_same res k v name
      · exact h2 kv h0
    · intro k1 hk1
      have hne : k1 ≠ k := fun h => hk1 (by simp [h])
      have hk2 : k1 ∉ rest.map Prod.fst := fun h => hk1 (by simp [h])
      rw [h3 k1 hk2]
      exact process_fieldOf_other res k k1 v name hne

/-- The loop never changes the field of a key that the data does not contain, whether it
ends with an error or not. -/
theorem processAll_frame (name k : String) (data : List (String × String)) :
    ∀ res, k ∉ data.map Prod.fst → fieldOf k (processAll res name data).1 = fieldOf k res := by
  induction data with
  | nil => intro res _; rfl
  | cons kv rest ih =>
    intro res hk
    obtain ⟨k0, v0⟩ := kv
    have hne : k ≠ k0 := fun h => hk (by simp [h])
    have hk2 : k ∉ rest.map Prod.fst := fun h => hk (by simp [h])
    have hstep := process_fieldOf_other res k0 k v0 name hne
    unfold processAll
    rcases hp : process res k0 v0 name with ⟨res1, e⟩
    rw [hp] at hstep
    cases e with
    | some e => exact hstep
    | none =>
      simp only
      rw [ih res1 hk2]
      exact hstep

/-- A stored layer never changes the field of a key that the fetched resource does not
contain. -/
theorem readConfig_frame (name k : String) (res : ClusterConfig) (b : Bool) (cm : ConfigMaps)
    (hk : ∀ data, (cm name).cmap = some data → k ∉ data.map Prod.fst) :
    fieldOf k (readConfig name res b cm).1 = fieldOf k res := by
  rcases readConfig_cases name res b cm with ⟨e, h⟩ | h | ⟨data, hc, h⟩
  · rw [h]
  · rw [h]
  · rw [h]
    exact processAll_frame name k data res (hk data hc)

theorem readConfig_ok_some (name : String) (res : ClusterConfig) (b : Bool) (cm : ConfigMaps)
    (data : List (String × String)) (hget : cm name = GetResult.ok (some data)) :
    readConfig name res b cm = processAll res name data := by
  simp [readConfig, hget, GetResult.ok, rewriteGetError]

theorem loadConfig_of_default_ok (name : String) (cm : ConfigMaps)
    (hne : name ≠ "") (hnd : name ≠ "default")
    (hdef : (readConfig Defaultname defaultConfig allowMissing cm).2 = none) :
    loadConfig name cm =
      readConfig name (readConfig Defaultname defaultConfig allowMissing cm).1 failOnMissing cm := by
  unfold loadConfig
  rcases hr : readConfig Defaultname defaultConfig allowMissing cm with ⟨res, e⟩
  rw [hr] at hdef
  simp only at hdef
  subst hdef
  have hn : name ≠ Defaultname := hnd
  simp only [ne_eq, hne, hn, not_false_eq_true, and_self, if_true]

theorem GetClusterConfig_of_default_err (config : Option ClusterConfig) (cm : ConfigMaps)
    (e : ClusterError)
    (hdef : (readConfig Defaultname defaultConfig allowMissing cm).2 = some e) :
    (GetClusterConfig config cm).2 = some e := by
  have hl : (loadConfig (targetName config) cm).2 = some e := by
    unfold loadConfig
    rcases hr : readConfig Defaultname defaultConfig allowMissing cm with ⟨res, e1⟩
    rw [hr] at hdef
    simp only at hdef
    subst hdef
    rfl
  rw [GetClusterConfig_of_load_err config cm e hl]

/-- The error of `process` on a count key whose value is not an integer. -/
theorem process_count_error (c : ClusterConfig) (R v : String)
    (h : isBase10Integer (Trim v "\n") = false) :
    (process c "mastercount" v R).2 =
        some ⟨"'" ++ R ++ ".mastercount', expected integer", ErrCode.ClusterConfigCode⟩ ∧
      (process c "workercount" v R).2 =
        some ⟨"'" ++ R ++ ".workercount', expected integer", ErrCode.ClusterConfigCode⟩ := by
  have hA : (Atoi (Trim v "\n")).2 ≠ none := by
    intro h0
    rw [Atoi_ok_isBase10Integer _ h0] at h
    exact Bool.noConfusion h
  have e1 : ".mastercount" ++ "', expected integer" = ".mastercount', expected integer" := by
    decide
  have e2 : ".workercount" ++ "', expected integer" = ".workercount', expected integer" := by
    decide
  constructor
  · rw [process_snd, if_pos rfl, getInt_snd, if_neg hA, String.append_assoc,
      String.append_assoc, String.append_assoc, e1]
  · rw [process_snd, if_neg (by decide), if_pos rfl, getInt_snd, if_neg hA, String.append_assoc,
      String.append_assoc, String.append_assoc, e2]

/-! ## The name of the configuration -/

theorem process_Name (c : ClusterConfig) (k v name : String) :
    (process c k v name).1.Name = c.Name := by
  unfold process
  split_ifs <;> rfl

theorem processAll_Name (name : String) (data : List (String × String)) :
    ∀ res, (processAll res name data).1.Name = res.Name := by
  induction data with
  | nil => intro res; rfl
  | cons kv rest ih =>
    intro res
    obtain ⟨k, v⟩ := kv
    have hstep := process_Name res k v name
    unfold processAll
    rcases hp : process res k v name with ⟨res1, e⟩
    rw [hp] at hstep
    cases e with
    | some e => exact hstep
    | none =>
      simp only
      rw [ih res1]
      exact hstep

theorem readConfig_Name (name : String) (res : ClusterConfig) (b : Bool) (cm : ConfigMaps) :
    (readConfig name res b cm).1.Name = res.Name := by
  rcases readConfig_cases name res b cm with ⟨e, h⟩ | h | ⟨data, _, h⟩
  · rw [h]
  · rw [h]
  · rw [h]
    exact processAll_Name name data res

theorem loadConfig_Name (name : String) (cm : ConfigMaps) :
    (loadConfig name cm).1.Name = defaultConfig.Name := by
  have h1 := readConfig_Name Defaultname defaultConfig allowMissing cm
  unfold loadConfig
  rcases hr : readConfig Defaultname defaultConfig allowMissing cm with ⟨res, e⟩
  rw [hr] at h1
  cases e with
  | some e => exact h1
  | none =>
    simp only
    split_ifs
    · rw [readConfig_Name]
      exact h1
    · exact h1

theorem assignConfig_Name (res src : ClusterConfig) : (assignConfig res src).Name = res.Name := by
  rw [assignConfig_eq]

/-- Neither `loadConfig` nor `assignConfig` looks at anything but the fields they merge:
the names `""` and `default` both skip the named layer. -/
theorem loadConfig_default_eq_empty (cm : ConfigMaps) :
    loadConfig "default" cm = loadConfig "" cm := by
  unfold loadConfig
  rcases readConfig Defaultname defaultConfig allowMissing cm with ⟨res, e⟩
  cases e with
  | some e => rfl
  | none => simp [Defaultname]

theorem assignConfig_Name_irrelevant (res src : ClusterConfig) (n : String) :
    assignConfig res { src with Name := n } = assignConfig res src := by
  rw [assignConfig_eq, assignConfig_eq]

theorem readConfig_no_error (name : String) (res : ClusterConfig) (b : Bool) (cm : ConfigMaps)
    (herr : (cm name).err = none) :
    readConfig name res b cm =
      match (cm name).cmap with
      | none => (res, none)
      | some data => processAll res name data := by
  unfold readConfig
  rw [herr]
  simp only [rewriteGetError]
  cases (cm name).cmap <;> rfl

theorem loadConfig_default_eq (cm : ConfigMaps) :
    loadConfig "default" cm = readConfig Defaultname defaultConfig allowMissing cm := by
  unfold loadConfig
  rcases readConfig Defaultname defaultConfig allowMissing cm with ⟨res, e⟩
  cases e with
  | some e => rfl
  | none => simp [Defaultname]

/-- A not-found error on `default` is dropped: the `default` layer is read as if `Get` had
returned the same config map and no error. -/
theorem loadConfig_default_tolerates (cm : ConfigMaps) (msg : String)
    (herr : (cm "default").err = some msg) (hnf : containsStr msg "not found" = true) :
    loadConfig "default" cm =
      loadConfig "default"
        (fun n => if n = "default" then GetResult.ok (cm n).cmap else cm n) := by
  rw [loadConfig_default_eq, loadConfig_default_eq,
    readConfig_notFound_allow Defaultname defaultConfig cm msg herr hnf,
    readConfig_no_error Defaultname defaultConfig allowMissing _ (by simp [Defaultname, GetResult.ok])]
  simp [Defaultname, GetResult.ok]

theorem GetClusterConfig_some_eq (c : ClusterConfig) (cm : ConfigMaps) :
    GetClusterConfig (some c) cm =
      match loadConfig c.Name cm with
      | (res, some e) => (res, some e)
      | (res, none) => (assignConfig res c, checkConfiguration (assignConfig res c)) := rfl

theorem GetClusterConfig_none_eq (cm : ConfigMaps) :
    GetClusterConfig none cm =
      match loadConfig "" cm with
      | (res, some e) => (res, some e)
      | (res, none) => (res, checkConfiguration res) := rfl

/-! ## Unrecognized keys and the order of the keys -/

theorem process_unrecognized (c : ClusterConfig) (k v name : String)
    (hk : k ∉ recognizedKeys) : process c k v name = (c, none) := by
  simp only [recognizedKeys, List.mem_cons, List.mem_singleton, List.not_mem_nil, or_false,
    not_or] at hk
  obtain ⟨h1, h2, h3, h4, h5, h6, h7, h8, h9⟩ := hk
  unfold process
  rw [if_neg h1, if_neg h2, if_neg h3, if_neg h4, if_neg h5, if_neg h6, if_neg h7, if_neg h8,
    if_neg h9]

theorem processAll_filter (name : String) (data : List (String × String)) :
    ∀ res, processAll res name (data.filter (fun kv => decide (kv.1 ∈ recognizedKeys))) =
      processAll res name data := by
  induction data with
  | nil => intro res; rfl
  | cons kv rest ih =>
    intro res
    obtain ⟨k, v⟩ := kv
    by_cases hk : k ∈ recognizedKeys
    · rw [List.filter_cons_of_pos (by simpa using hk)]
      unfold processAll
      rcases process res k v name with ⟨res1, e⟩
      cases e with
      | some e => rfl
      | none => exact ih res1
    · rw [List.filter_cons_of_neg (by simpa using hk), ih res]
      conv_rhs => unfold processAll
      rw [process_unrecognized res k v name hk]

theorem readConfig_strip (name : String) (res : ClusterConfig) (b : Bool) (cm : ConfigMaps) :
    readConfig name res b cm = readConfig name res b (fun n => stripUnrecognized (cm n)) := by
  unfold readConfig
  simp only [stripUnrecognized]
  cases rewriteGetError name b (cm name).err with
  | some e => rfl
  | none =>
    cases (cm name).cmap with
    | none => rfl
    | some data => exact (processAll_filter name data res).symm

theorem GetClusterConfig_strip (config : Option ClusterConfig) (cm : ConfigMaps) :
    GetClusterConfig config cm = GetClusterConfig config (fun n => stripUnrecognized (cm n)) := by
  have h : ∀ name res b,
      readConfig name res b cm = readConfig name res b (fun n => stripUnrecognized (cm n)) :=
    fun name res b => readConfig_strip name res b cm
  unfold GetClusterConfig loadConfig
  simp only [h]

/-- A configuration is determined by its name and the fields of the nine recognized keys. -/
theorem config_ext_fieldOf (a b : ClusterConfig) (hn : a.Name = b.Name)
    (hf : ∀ k ∈ recognizedKeys, fieldOf k a = fieldOf k b) : a = b := by
  have h1 := hf "mastercount" (by decide)
  have h2 := hf "workercount" (by decide)
  have h3 := hf "sparkmasterconfig" (by decide)
  have h4 := hf "sparkworkerconfig" (by decide)
  have h5 := hf "metrics.enable" (by decide)
  have h6 := hf "metrics.carbon" (by decide)
  have h7 := hf "metrics.graphite" (by decide)
  have h8 := hf "scorpionstare.enable" (by decide)
  have h9 := hf "scorpionstare.image" (by decide)
  simp [fieldOf] at h1 h2 h3 h4 h5 h6 h7 h8 h9
  obtain ⟨a1, a2, a3, a4, a5, ⟨a6, a7, a8⟩, ⟨a9, a10⟩⟩ := a
  obtain ⟨b1, b2, b3, b4, b5, ⟨b6, b7, b8⟩, ⟨b9, b10⟩⟩ := b
  simp only at hn h1 h2 h3 h4 h5 h6 h7 h8 h9
  subst hn h1 h2 h3 h4 h5 h6 h7 h8 h9
  rfl

/-- A pair whose count value parses, or whose key is not a count, is processed without
error. -/
theorem process_ok_of_parse (name : String) (l : List (String × String))
    (hl : ∀ kv ∈ l, kv.1 = "mastercount" ∨ kv.1 = "workercount" →
      (Atoi (Trim kv.2 "\n")).2 = none) :
    ∀ kv ∈ l, (process defaultConfig kv.1 kv.2 name).2 = none := by
  intro kv hmem
  rw [process_snd]
  split_ifs with h1 h2
  · rw [getInt_snd, if_pos (hl kv hmem (Or.inl h1))]
  · rw [getInt_snd, if_pos (hl kv hmem (Or.inr h2))]
  · rfl

/-! ## Parsing the base-10 representation of an integer -/

theorem digitChar_spec : ∀ d, d < 10 →
    isDecDigit (Nat.digitChar d) = true ∧ (Nat.digitChar d).toNat - 48 = d := by
  decide

theorem isDecDigit_not_special (c : Char) (h : isDecDigit c = true) :
    c ≠ '+' ∧ c ≠ '-' ∧ c ≠ '\n' := by
  refine ⟨?_, ?_, ?_⟩ <;> intro hc <;> subst hc <;> exact absurd h (by decide)

theorem toDigitsCore_digits (fuel : Nat) :
    ∀ (n : Nat) (ds : List Char), (∀ c ∈ ds, isDecDigit c = true) →
      ∀ c ∈ Nat.toDigitsCore 10 fuel n ds, isDecDigit c = true := by
  induction fuel with
  | zero => intro n ds h; exact h
  | succ fuel ih =>
    intro n ds h
    have hd : ∀ c ∈ Nat.digitChar (n % 10) :: ds, isDecDigit c = true := by
      intro c hc
      rcases List.mem_cons.1 hc with h0 | h0
      · rw [h0]
        exact (digitChar_spec (n % 10) (Nat.mod_lt _ (by decide))).1
      · exact h c h0
    unfold Nat.toDigitsCore
    simp only
    split_ifs
    · exact hd
    · exact ih _ _ hd

theorem toDigitsCore_value (fuel : Nat) :
    ∀ (n : Nat) (ds : List Char), n < fuel →
      digitsValue (Nat.toDigitsCore 10 fuel n ds) 0 = digitsValue ds n := by
  induction fuel with
  | zero => intro n ds h; omega
  | succ fuel ih =>
    intro n ds h
    have hv := (digitChar_spec (n % 10) (Nat.mod_lt _ (by decide))).2
    have hstep : digitsValue (Nat.digitChar (n % 10) :: ds) (n / 10) = digitsValue ds n := by
      simp only [digitsValue, List.foldl_cons, hv]
      congr 1
      omega
    unfold Nat.toDigitsCore
    simp only
    split_ifs with h0
    · rw [← hstep, h0]
    · rw [ih (n / 10) _ (by omega)]
      exact hstep

theorem toDigitsCore_ne_nil (fuel n : Nat) (ds : List Char) (h : ds ≠ []) :
    Nat.toDigitsCore 10 fuel n ds ≠ [] := by
  induction fuel generalizing n ds with
  | zero => exact h
  | succ fuel ih =>
    unfold Nat.toDigitsCore
    simp only
    split_ifs
    · simp
    · exact ih _ _ (by simp)

theorem toDigits_spec (m : Nat) :
    Nat.toDigits 10 m ≠ [] ∧ (∀ c ∈ Nat.toDigits 10 m, isDecDigit c = true) ∧
      digitsValue (Nat.toDigits 10 m) 0 = m := by
  refine ⟨?_, ?_, ?_⟩
  · unfold Nat.toDigits Nat.toDigitsCore
    simp only
    split_ifs
    · simp
    · exact toDigitsCore_ne_nil _ _ _ (by simp)
  · exact toDigitsCore_digits _ _ _ (by simp)
  · rw [Nat.toDigits, toDigitsCore_value (m + 1) m [] (by omega)]
    rfl

theorem digitsValue_ge (ds : List Char) : ∀ n, n ≤ digitsValue ds n := by
  induction ds with
  | nil => intro n; exact le_refl n
  | cons d ds ih =>
    intro n
    have := ih (n * 10 + (d.toNat - 48))
    simp only [digitsValue, List.foldl_cons] at this ⊢
    omega

theorem parseUintLoop_value (ds : List Char) :
    ∀ n, (∀ c ∈ ds, isDecDigit c = true) → digitsValue ds n ≤ 2 ^ IntSize - 1 →
      parseUintLoop ds n = (digitsValue ds n, none) := by
  induction ds with
  | nil => intro n _ _; rfl
  | cons d ds ih =>
    intro n hd hv
    have hge := digitsValue_ge ds (n * 10 + (d.toNat - 48))
    have hv1 : digitsValue ds (n * 10 + (d.toNat - 48)) ≤ 2 ^ IntSize - 1 := hv
    have hdd : isDecDigit d = true := hd d (List.mem_cons_self _ _)
    unfold parseUintLoop
    rw [if_pos hdd]
    simp only [IntSize] at hv1 hge ⊢
    norm_num at hv1 ⊢
    rw [if_neg (by omega), if_neg (by omega)]
    have := ih (n * 10 + (d.toNat - 48)) (fun c hc => hd c (List.mem_cons_of_mem _ hc))
      (by simp only [IntSize]; norm_num; exact hv1)
    rw [this]
    rfl

theorem rdropWhile_append_replicate (p : Char → Bool) (ds : List Char) (x : Char)
    (hx : p x = true) (k : Nat) :
    (ds ++ List.replicate k x).rdropWhile p = ds.rdropWhile p := by
  induction k with
  | zero => simp
  | succ k ih =>
    rw [List.replicate_succ', ← List.append_assoc, List.rdropWhile_concat_pos _ _ _ hx, ih]

/-- Trimming a block that neither starts nor ends with a newline, followed by newlines,
leaves the block. -/
theorem Trim_block_newlines (l : List Char) (c : Char) (cs : List Char) (hl : l = c :: cs)
    (hhead : c ≠ '\n') (hlast : ∀ h : l ≠ [], l.getLast h ≠ '\n') (k : Nat) :
    Trim ⟨l ++ List.replicate k '\n'⟩ "\n" = ⟨l⟩ := by
  have hp : ∀ x, x ≠ '\n' → ¬ ("\n".data.contains x) = true :=
    fun x hx h => hx ((newline_cutset x).1 h)
  have h1 : dropTrailing (fun x => "\n".data.contains x) (l ++ List.replicate k '\n') = l := by
    show (l ++ List.replicate k '\n').rdropWhile (fun x => "\n".data.contains x) = l
    rw [rdropWhile_append_replicate _ l '\n' ((newline_cutset _).2 rfl) k,
      List.rdropWhile_eq_self_iff]
    intro h
    exact hp _ (hlast h)
  unfold Trim
  simp only [h1]
  congr 1
  rw [hl, List.dropWhile_cons_of_neg (hp c hhead)]

theorem Atoi_nonneg (m : Nat) (hm : m < 2 ^ (IntSize - 1)) :
    Atoi ⟨Nat.toDigits 10 m⟩ = ((m : Int), none) := by
  obtain ⟨hne, hd, hv⟩ := toDigits_spec m
  have hP : parseUintLoop (Nat.toDigits 10 m) 0 = (m, none) := by
    rw [parseUintLoop_value _ 0 hd (by rw [hv]; simp only [IntSize] at hm ⊢; omega), hv]
  unfold Atoi
  cases hds : Nat.toDigits 10 m with
  | nil => exact absurd hds hne
  | cons c cs =>
    have hc := isDecDigit_not_special c (hd c (by rw [hds]; exact List.mem_cons_self _ _))
    simp only
    rw [if_neg hc.1, if_neg hc.2.1]
    rw [hds] at hP
    unfold parseIntSigned ParseUint
    simp only [hP]
    simp only [IntSize] at hm ⊢
    norm_num at hm ⊢
    intro h
    omega

theorem Atoi_neg (m : Nat) (hm : m ≤ 2 ^ (IntSize - 1)) :
    Atoi ⟨'-' :: Nat.toDigits 10 m⟩ = (-(m : Int), none) := by
  obtain ⟨hne, hd, hv⟩ := toDigits_spec m
  have hP : parseUintLoop (Nat.toDigits 10 m) 0 = (m, none) := by
    rw [parseUintLoop_value _ 0 hd (by rw [hv]; simp only [IntSize] at hm ⊢; omega), hv]
  unfold Atoi
  simp only
  rw [if_pos trivial]
  cases hds : Nat.toDigits 10 m with
  | nil => exact absurd hds hne
  | cons c cs =>
    rw [hds] at hP
    unfold parseIntSigned ParseUint
    simp only [hP]
    simp only [IntSize] at hm ⊢
    norm_num at hm ⊢
    rw [if_neg (by decide), if_neg (by omega)]

theorem decimalRepr_data (n : Int) :
    (decimalRepr n).data =
      if n < 0 then '-' :: Nat.toDigits 10 n.natAbs else Nat.toDigits 10 n.natAbs := by
  unfold decimalRepr
  split_ifs
  · rw [String.data_append]
    rfl
  · rfl

/-- Parsing the base-10 representation of a machine integer followed by newlines gives the
integer back. -/
theorem getInt_decimalRepr (n : Int) (k : Nat) (name : String)
    (hlo : -(2 : Int) ^ (IntSize - 1) ≤ n) (hhi : n < (2 : Int) ^ (IntSize - 1)) :
    getInt ⟨(decimalRepr n).data ++ List.replicate k '\n'⟩ name = (n, none) := by
  have hA : Atoi (Trim ⟨(decimalRepr n).data ++ List.replicate k '\n'⟩ "\n") = (n, none) := by
    rw [decimalRepr_data]
    obtain ⟨hne, hd, _⟩ := toDigits_spec n.natAbs
    have hnl : ∀ h : Nat.toDigits 10 n.natAbs ≠ [],
        (Nat.toDigits 10 n.natAbs).getLast h ≠ '\n' :=
      fun h => (isDecDigit_not_special _ (hd _ (List.getLast_mem h))).2.2
    simp only [IntSize] at hlo hhi
    norm_num at hlo hhi
    by_cases hn : n < 0
    · rw [if_pos hn, Trim_block_newlines _ '-' _ rfl (by decide)
        (fun h => by rw [List.getLast_cons hne]; exact hnl hne) k, Atoi_neg]
      · congr 1
        omega
      · simp only [IntSize]
        norm_num
        omega
    · rw [if_neg hn]
      cases hds : Nat.toDigits 10 n.natAbs with
      | nil => exact absurd hds hne
      | cons c cs =>
        rw [← hds, Trim_block_newlines _ c cs hds
          (isDecDigit_not_special c (hd c (by rw [hds]; exact List.mem_cons_self _ _))).2.2
          hnl k, Atoi_nonneg]
        · congr 1
          omega
        · simp only [IntSize]
          norm_num
          omega
  unfold getInt
  rw [hA]

/-! ## Claims -/

/-- C1: whenever `GetClusterConfig` returns no error, the returned configuration has
`MasterCount = 1` and `WorkerCount ≥ 1`; and whenever the stored layers load without a
fetch or parse error, the returned configuration is the merged one (the loaded layers with
the explicit override applied) and an error is returned exactly when the merged
`MasterCount` is not 1 or the merged `WorkerCount` is below 1. -/
theorem C1_result_is_validated (config : Option ClusterConfig) (cm : ConfigMaps) :
    ((GetClusterConfig config cm).2 = none →
      (GetClusterConfig config cm).1.MasterCount = 1 ∧
        1 ≤ (GetClusterConfig config cm).1.WorkerCount) ∧
    ((loadConfig (targetName config) cm).2 = none →
      (GetClusterConfig config cm).1 =
          applyExplicit (loadConfig (targetName config) cm).1 config ∧
        ((GetClusterConfig config cm).2 ≠ none ↔
          ((applyExplicit (loadConfig (targetName config) cm).1 config).MasterCount ≠ 1 ∨
            (applyExplicit (loadConfig (targetName config) cm).1 config).WorkerCount < 1))) := by
  constructor
  · intro h
    have hl := load_ok_of_GetClusterConfig_ok config cm h
    rw [GetClusterConfig_of_load_ok config cm hl] at h ⊢
    exact (checkConfiguration_eq_none_iff _).1 h
  · intro hl
    rw [GetClusterConfig_of_load_ok config cm hl]
    refine ⟨rfl, ?_⟩
    simp only [ne_eq, checkConfiguration_eq_none_iff]
    omega

theorem C1_result_is_validated_witness :
    ((GetClusterConfig (some fooNine) fooStore).2 = none ∧
      (GetClusterConfig (some fooNine) fooStore).1.MasterCount = 1 ∧
        1 ≤ (GetClusterConfig (some fooNine) fooStore).1.WorkerCount) ∧
    ((loadConfig (targetName (some fooNine)) fooStore).2 = none ∧
      (GetClusterConfig (some fooNine) fooStore).1 =
          applyExplicit (loadConfig (targetName (some fooNine)) fooStore).1 (some fooNine) ∧
        ((GetClusterConfig (some fooNine) fooStore).2 ≠ none ↔
          ((applyExplicit (loadConfig (targetName (some fooNine)) fooStore).1
              (some fooNine)).MasterCount ≠ 1 ∨
            (applyExplicit (loadConfig (targetName (some fooNine)) fooStore).1
              (some fooNine)).WorkerCount < 1))) :=
  ⟨⟨by decide, (C1_result_is_validated (some fooNine) fooStore).1 (by decide)⟩,
    ⟨by decide, (C1_result_is_validated (some fooNine) fooStore).2 (by decide)⟩⟩

/-- C2 (counterexample): the `default` resource of `zeroStore` supplies `workercount=0`
and a `metrics.carbon` made of newlines only; the compiled-in default gave these fields the
values 1 and `docker.io/tmckay/carbon`, and both are replaced by the zero/empty value. -/
theorem C2_stored_zero_clobbers :
    defaultConfig.WorkerCount = 1 ∧
      (GetClusterConfig none zeroStore).1.WorkerCount = 0 ∧
      defaultConfig.Metrics.Carbon = "docker.io/tmckay/carbon" ∧
      (GetClusterConfig none zeroStore).1.Metrics.Carbon = "" := by
  decide

/-- C2 (amended): field independence for what a higher-priority layer leaves unset.  For
every store, a stored layer leaves in place the lower layer's value of every field whose
key the fetched config map does not contain; and for every explicit configuration, a field
of the explicit configuration that is zero (counts) or empty (strings) leaves the value that
the stored layers gave to that field in place in the result of `GetClusterConfig`. -/
theorem C2_unset_keeps_lower (cm : ConfigMaps) (c : ClusterConfig) :
    (∀ (name k : String) (res : ClusterConfig) (b : Bool),
      (∀ data, (cm name).cmap = some data → k ∉ data.map Prod.fst) →
      fieldOf k (readConfig name res b cm).1 = fieldOf k res) ∧
    (c.MasterCount = 0 →
      (GetClusterConfig (some c) cm).1.MasterCount = (loadConfig c.Name cm).1.MasterCount) ∧
    (c.WorkerCount = 0 →
      (GetClusterConfig (some c) cm).1.WorkerCount = (loadConfig c.Name cm).1.WorkerCount) ∧
    (c.SparkMasterConfig = "" →
      (GetClusterConfig (some c) cm).1.SparkMasterConfig =
        (loadConfig c.Name cm).1.SparkMasterConfig) ∧
    (c.SparkWorkerConfig = "" →
      (GetClusterConfig (some c) cm).1.SparkWorkerConfig =
        (loadConfig c.Name cm).1.SparkWorkerConfig) ∧
    (c.Metrics.Enable = "" →
      (GetClusterConfig (some c) cm).1.Metrics.Enable = (loadConfig c.Name cm).1.Metrics.Enable) ∧
    (c.Metrics.Carbon = "" →
      (GetClusterConfig (some c) cm).1.Metrics.Carbon = (loadConfig c.Name cm).1.Metrics.Carbon) ∧
    (c.Metrics.Graphite = "" →
      (GetClusterConfig (some c) cm).1.Metrics.Graphite =
        (loadConfig c.Name cm).1.Metrics.Graphite) ∧
    (c.ScorpionStare.Enable = "" →
      (GetClusterConfig (some c) cm).1.ScorpionStare.Enable =
        (loadConfig c.Name cm).1.ScorpionStare.Enable) ∧
    (c.ScorpionStare.Image = "" →
      (GetClusterConfig (some c) cm).1.ScorpionStare.Image =
        (loadConfig c.Name cm).1.ScorpionStare.Image) := by
  refine ⟨fun name k res b hk => readConfig_frame name k res b cm hk, ?_⟩
  rcases GetClusterConfig_some_fst c cm with h | ⟨_, h⟩
  · rw [h]
    simp
  · rw [h, assignConfig_eq]
    refine ⟨?_, ?_, ?_, ?_, ?_, ?_, ?_, ?_, ?_⟩ <;> intro h0 <;> simp [h0]

theorem C2_unset_keeps_lower_witness :
    ((∀ data, (fooStore "foo").cmap = some data → "metrics.carbon" ∉ data.map Prod.fst) ∧
      fieldOf "metrics.carbon" (readConfig "foo" defaultConfig failOnMissing fooStore).1 =
        some (FieldValue.str "docker.io/tmckay/carbon")) ∧
    (named "foo").MasterCount = 0 ∧ (named "foo").WorkerCount = 0 ∧
    (named "foo").SparkMasterConfig = "" ∧ (named "foo").SparkWorkerConfig = "" ∧
    (named "foo").Metrics.Enable = "" ∧ (named "foo").Metrics.Carbon = "" ∧
    (named "foo").Metrics.Graphite = "" ∧ (named "foo").ScorpionStare.Enable = "" ∧
    (named "foo").ScorpionStare.Image = "" ∧
    (GetClusterConfig (some (named "foo")) fooStore).1.MasterCount = 1 ∧
    (GetClusterConfig (some (named "foo")) fooStore).1.WorkerCount = 5 ∧
    (GetClusterConfig (some (named "foo")) fooStore).1.SparkMasterConfig = "" ∧
    (GetClusterConfig (some (named "foo")) fooStore).1.SparkWorkerConfig = "" ∧
    (GetClusterConfig (some (named "foo")) fooStore).1.Metrics.Enable = "" ∧
    (GetClusterConfig (some (named "foo")) fooStore).1.Metrics.Carbon =
      "docker.io/tmckay/carbon" ∧
    (GetClusterConfig (some (named "foo")) fooStore).1.Metrics.Graphite =
      "docker.io/tmckay/graphite" ∧
    (GetClusterConfig (some (named "foo")) fooStore).1.ScorpionStare.Enable = "" ∧
    (GetClusterConfig (some (named "foo")) fooStore).1.ScorpionStare.Image =
      "docker.io/tmckay/scorpionstare" :=
  have habs : ∀ data, (fooStore "foo").cmap = some data →
      "metrics.carbon" ∉ data.map Prod.fst := fun data h => by
    have h2 : (fooStore "foo").cmap = some [("workercount", "5")] := by decide
    rw [h2] at h
    injection h with h3
    subst h3
    decide
  ⟨⟨habs,
      ((C2_unset_keeps_lower fooStore (named "foo")).1 "foo" "metrics.carbon" defaultConfig
        failOnMissing habs).trans (by decide)⟩,
    by decide, by decide, by decide, by decide, by decide, by decide, by decide, by decide,
    by decide,
    ((C2_unset_keeps_lower fooStore (named "foo")).2.1 (by decide)).trans (by decide),
    ((C2_unset_keeps_lower fooStore (named "foo")).2.2.1 (by decide)).trans (by decide),
    ((C2_unset_keeps_lower fooStore (named "foo")).2.2.2.1 (by decide)).trans (by decide),
    ((C2_unset_keeps_lower fooStore (named "foo")).2.2.2.2.1 (by decide)).trans (by decide),
    ((C2_unset_keeps_lower fooStore (named "foo")).2.2.2.2.2.1 (by decide)).trans (by decide),
    ((C2_unset_keeps_lower fooStore (named "foo")).2.2.2.2.2.2.1 (by decide)).trans
      (by decide),
    ((C2_unset_keeps_lower fooStore (named "foo")).2.2.2.2.2.2.2.1 (by decide)).trans
      (by decide),
    ((C2_unset_keeps_lower fooStore (named "foo")).2.2.2.2.2.2.2.2.1 (by decide)).trans
      (by decide),
    ((C2_unset_keeps_lower fooStore (named "foo")).2.2.2.2.2.2.2.2.2 (by decide)).trans
      (by decide)⟩

/-- C3 (counterexample): fetching `default` from `staleStore` reports not-found, and with
no explicit configuration `GetClusterConfig` returns `WorkerCount` 7, not the compiled-in
`defaultConfig`: the not-found error is cleared and the loop still runs over the config map
that `Get` returned with it. -/
theorem C3_not_found_with_data :
    (staleStore "default").err = some "configmaps \"default\" not found" ∧
      containsStr "configmaps \"default\" not found" "not found" = true ∧
      GetClusterConfig none staleStore = ({ defaultConfig with WorkerCount := 7 }, none) ∧
      GetClusterConfig none staleStore ≠ (defaultConfig, none) := by
  decide

/-- C3 (amended): with no explicit configuration and a store in which fetching `default`
reports not-found and returns no data with the error (a `nil` config map or one without
data), `GetClusterConfig` returns no error and the compiled-in `defaultConfig`, whose
fields are `MasterCount` 1, `WorkerCount` 1, empty spark configs, the default carbon,
graphite and scorpionstare images and empty enable flags. -/
theorem C3_default_only (cm : ConfigMaps) (msg : String)
    (herr : (cm "default").err = some msg)
    (hnf : containsStr msg "not found" = true)
    (hdata : (cm "default").cmap = none ∨ (cm "default").cmap = some []) :
    GetClusterConfig none cm = (defaultConfig, none) ∧
      (GetClusterConfig none cm).1 =
        { MasterCount := 1, WorkerCount := 1, Name := "default", SparkMasterConfig := "",
          SparkWorkerConfig := "",
          Metrics := ⟨"", "docker.io/tmckay/carbon", "docker.io/tmckay/graphite"⟩,
          ScorpionStare := ⟨"", "docker.io/tmckay/scorpionstare"⟩ } := by
  have hr := readConfig_failed_notFound_allow Defaultname defaultConfig cm msg herr hnf hdata
  have hl : loadConfig (targetName none) cm = (defaultConfig, none) := by
    simp [loadConfig, hr, targetName]
  have hg : GetClusterConfig none cm = (defaultConfig, none) := by
    rw [GetClusterConfig_of_load_ok none cm (by rw [hl]), hl]
    simp only [applyExplicit]
    rfl
  exact ⟨hg, by rw [hg]; rfl⟩

theorem C3_default_only_witness :
    (emptyStore "default").err = some "configmaps \"default\" not found" ∧
      containsStr "configmaps \"default\" not found" "not found" = true ∧
      ((emptyStore "default").cmap = none ∨ (emptyStore "default").cmap = some []) ∧
      GetClusterConfig none emptyStore = (defaultConfig, none) :=
  ⟨by decide, by decide, by decide,
    (C3_default_only emptyStore "configmaps \"default\" not found" (by decide) (by decide)
      (by decide)).1⟩

/-- C4: explicit override wins.  For every store and every explicit configuration such that
`GetClusterConfig` returns no error, each field of the explicit configuration other than
`Name` that is non-zero (counts) or non-empty (strings) appears unchanged in the result. -/
theorem C4_explicit_override_wins (cm : ConfigMaps) (c : ClusterConfig)
    (hok : (GetClusterConfig (some c) cm).2 = none) :
    (c.MasterCount ≠ 0 → (GetClusterConfig (some c) cm).1.MasterCount = c.MasterCount) ∧
    (c.WorkerCount ≠ 0 → (GetClusterConfig (some c) cm).1.WorkerCount = c.WorkerCount) ∧
    (c.SparkMasterConfig ≠ "" →
      (GetClusterConfig (some c) cm).1.SparkMasterConfig = c.SparkMasterConfig) ∧
    (c.SparkWorkerConfig ≠ "" →
      (GetClusterConfig (some c) cm).1.SparkWorkerConfig = c.SparkWorkerConfig) ∧
    (c.Metrics.Enable ≠ "" → (GetClusterConfig (some c) cm).1.Metrics.Enable = c.Metrics.Enable) ∧
    (c.Metrics.Carbon ≠ "" → (GetClusterConfig (some c) cm).1.Metrics.Carbon = c.Metrics.Carbon) ∧
    (c.Metrics.Graphite ≠ "" →
      (GetClusterConfig (some c) cm).1.Metrics.Graphite = c.Metrics.Graphite) ∧
    (c.ScorpionStare.Enable ≠ "" →
      (GetClusterConfig (some c) cm).1.ScorpionStare.Enable = c.ScorpionStare.Enable) ∧
    (c.ScorpionStare.Image ≠ "" →
      (GetClusterConfig (some c) cm).1.ScorpionStare.Image = c.ScorpionStare.Image) := by
  have hl := load_ok_of_GetClusterConfig_ok (some c) cm hok
  rw [GetClusterConfig_of_load_ok (some c) cm hl]
  simp only [applyExplicit, assignConfig_eq]
  refine ⟨?_, ?_, ?_, ?_, ?_, ?_, ?_, ?_, ?_⟩ <;> intro h0 <;> simp [h0]

theorem C4_explicit_override_wins_witness :
    (GetClusterConfig (some fooNine) fooStore).2 = none ∧
      fooNine.WorkerCount = 9 ∧
      (GetClusterConfig (some fooNine) fooStore).1.WorkerCount = 9 :=
  ⟨by decide, by decide,
    ((C4_explicit_override_wins fooStore fooNine (by decide)).2.1 (by decide)).trans
      (by decide)⟩

/-- C5: named layer wins over default layer.  For every name `N` that is non-empty and
different from `default`, and every store in which both `default` and `N` are present (each
with distinct keys) and all their count values parse, `loadConfig` returns no error, every
key present in the data of `N` determines the field it stands for (the trimmed and, for the
counts, parsed value from `N`), and every key present only in `default` determines its
field with the value from `default`. -/
theorem C5_named_layer_wins (cm : ConfigMaps) (N : String) (d n : List (String × String))
    (hne : N ≠ "") (hnd : N ≠ "default")
    (hd : cm "default" = GetResult.ok (some d)) (hn : cm N = GetResult.ok (some n))
    (hdk : (d.map Prod.fst).Nodup) (hnk : (n.map Prod.fst).Nodup)
    (hdp : ∀ kv ∈ d, kv.1 = "mastercount" ∨ kv.1 = "workercount" →
      (Atoi (Trim kv.2 "\n")).2 = none)
    (hnp : ∀ kv ∈ n, kv.1 = "mastercount" ∨ kv.1 = "workercount" →
      (Atoi (Trim kv.2 "\n")).2 = none) :
    (loadConfig N cm).2 = none ∧
      (∀ kv ∈ n, fieldOf kv.1 (loadConfig N cm).1 = storedValue kv.1 kv.2) ∧
      (∀ kv ∈ d, kv.1 ∉ n.map Prod.fst →
        fieldOf kv.1 (loadConfig N cm).1 = storedValue kv.1 kv.2) := by
  have hproc : ∀ (name : String) (l : List (String × String)),
      (∀ kv ∈ l, kv.1 = "mastercount" ∨ kv.1 = "workercount" →
        (Atoi (Trim kv.2 "\n")).2 = none) →
      ∀ kv ∈ l, (process defaultConfig kv.1 kv.2 name).2 = none := by
    intro name l hl kv hmem
    rw [process_snd]
    split_ifs with h1 h2
    · rw [getInt_snd, if_pos (hl kv hmem (Or.inl h1))]
    · rw [getInt_snd, if_pos (hl kv hmem (Or.inr h2))]
    · rfl
  have hrd : readConfig Defaultname defaultConfig allowMissing cm =
      processAll defaultConfig Defaultname d :=
    readConfig_ok_some Defaultname defaultConfig allowMissing cm d hd
  obtain ⟨d1, d2, _⟩ := processAll_ok Defaultname d defaultConfig (hproc Defaultname d hdp) hdk
  have hl : loadConfig N cm = processAll (processAll defaultConfig Defaultname d).1 N n := by
    rw [loadConfig_of_default_ok N cm hne hnd (by rw [hrd]; exact d1), hrd]
    exact readConfig_ok_some N _ failOnMissing cm n hn
  obtain ⟨n1, n2, n3⟩ :=
    processAll_ok N n (processAll defaultConfig Defaultname d).1 (hproc N n hnp) hnk
  rw [hl]
  refine ⟨n1, n2, ?_⟩
  intro kv hmem hnot
  rw [n3 kv.1 hnot]
  exact d2 kv hmem

theorem C5_named_layer_wins_witness :
    (loadConfig "foo" fooStore).2 = none ∧
      fieldOf "workercount" (loadConfig "foo" fooStore).1 = storedValue "workercount" "5" ∧
      storedValue "workercount" "5" = some (FieldValue.int 5) ∧
      (loadConfig "foo" fooStore).1.WorkerCount = 5 :=
  ⟨(C5_named_layer_wins fooStore "foo" [("workercount", "3")] [("workercount", "5")]
      (by decide) (by decide) (by decide) (by decide) (by decide) (by decide) (by decide)
      (by decide)).1,
    (C5_named_layer_wins fooStore "foo" [("workercount", "3")] [("workercount", "5")]
      (by decide) (by decide) (by decide) (by decide) (by decide) (by decide) (by decide)
      (by decide)).2.1 ("workercount", "5") (by decide),
    by decide, by decide⟩

/-- C6: missing named resource is fatal.  For every explicit configuration whose `Name` is
non-empty and different from `default`, and every store in which the `default` layer loads
without error and fetching that name reports not-found, `GetClusterConfig` returns the
error `named config 'N' does not exist` together with the configuration as the `default`
layer left it: neither the explicit configuration nor validation is applied, so the outcome
depends on no other field of the explicit configuration. -/
theorem C6_missing_named_is_fatal (cm : ConfigMaps) (c : ClusterConfig) (msg : String)
    (hne : c.Name ≠ "") (hnd : c.Name ≠ "default")
    (hdef : (readConfig Defaultname defaultConfig allowMissing cm).2 = none)
    (hget : (cm c.Name).err = some msg)
    (hnf : containsStr msg "not found" = true) :
    GetClusterConfig (some c) cm =
      ((readConfig Defaultname defaultConfig allowMissing cm).1,
        some ⟨"named config '" ++ c.Name ++ "' does not exist", ErrCode.ClusterConfigCode⟩) := by
  have hl : loadConfig (targetName (some c)) cm =
      ((readConfig Defaultname defaultConfig allowMissing cm).1,
        some (NewClusterError (NamedConfigDoesNotExist c.Name) ErrCode.ClusterConfigCode)) := by
    unfold loadConfig
    rcases hr : readConfig Defaultname defaultConfig allowMissing cm with ⟨res, e⟩
    rw [hr] at hdef
    simp only at hdef
    subst hdef
    have hn : c.Name ≠ Defaultname := hnd
    simp only [targetName, ne_eq, hne, hn, not_false_eq_true, and_self, if_true]
    exact readConfig_failed_notFound_fail c.Name res cm msg hget hnf
  rw [GetClusterConfig_of_load_err (some c) cm _ (by rw [hl]), hl]
  rfl

theorem C6_missing_named_is_fatal_witness :
    GetClusterConfig (some { fooNine with Name := "bar" }) fooStore =
      ((readConfig Defaultname defaultConfig allowMissing fooStore).1,
        some ⟨"named config '" ++ "bar" ++ "' does not exist", ErrCode.ClusterConfigCode⟩) :=
  C6_missing_named_is_fatal fooStore { fooNine with Name := "bar" }
    "configmaps \"bar\" not found" (by decide) (by decide) (by decide) (by decide) (by decide)

/-- C7: validation ordering.  `checkConfiguration` returns the master-count error whenever
`MasterCount ≠ 1`, whatever `WorkerCount` is; it returns the worker-count error exactly when
`MasterCount = 1` and `WorkerCount < 1`; and it returns no error exactly when
`MasterCount = 1` and `WorkerCount ≥ 1`. -/
theorem C7_validation_ordering (config : ClusterConfig) :
    (config.MasterCount ≠ 1 →
      checkConfiguration config =
        some ⟨"cluster configuration must have a masterCount of 1", ErrCode.ClusterConfigCode⟩) ∧
    (checkConfiguration config =
        some ⟨"cluster configuration may not have a workerCount less than 1",
          ErrCode.ClusterConfigCode⟩ ↔
      config.MasterCount = 1 ∧ config.WorkerCount < 1) ∧
    (checkConfiguration config = none ↔ config.MasterCount = 1 ∧ 1 ≤ config.WorkerCount) := by
  refine ⟨?_, ?_, checkConfiguration_eq_none_iff config⟩
  · intro h
    simp [checkConfiguration, h, NewClusterError, MasterCountMustBeOne]
  · unfold checkConfiguration
    by_cases h1 : config.MasterCount = 1
    · by_cases h2 : config.WorkerCount < 1
      · simp [h1, h2, NewClusterError, WorkerCountMustBeAtLeastOne]
      · simp [h1, h2]
    · have hm : MasterCountMustBeOne ≠
          "cluster configuration may not have a workerCount less than 1" := by decide
      simp [h1, NewClusterError, hm]

theorem C7_validation_ordering_witness :
    ({ defaultConfig with MasterCount := 2, WorkerCount := 0 } : ClusterConfig).MasterCount ≠ 1 ∧
      checkConfiguration { defaultConfig with MasterCount := 2, WorkerCount := 0 } =
        some ⟨"cluster configuration must have a masterCount of 1", ErrCode.ClusterConfigCode⟩ :=
  ⟨by decide,
    (C7_validation_ordering { defaultConfig with MasterCount := 2, WorkerCount := 0 }).1
      (by decide)⟩

/-- C8 (counterexample): the `default` resource of `badStore` contains `mastercount=abc`,
and `GetClusterConfig` returns the error that names `default.workercount`, not the one
that names `default.mastercount`: the loop stops at the pair it visits first. -/
theorem C8_other_key_reported_first :
    badStore "default" = GetResult.ok (some [("workercount", "x"), ("mastercount", "abc")]) ∧
      (GetClusterConfig none badStore).2 =
        some ⟨"'default.workercount', expected integer", ErrCode.ClusterConfigCode⟩ ∧
      (GetClusterConfig none badStore).2 ≠
        some ⟨"'default.mastercount', expected integer", ErrCode.ClusterConfigCode⟩ := by
  decide

/-- C8 (amended): parse failure.  For every resource name `R` and every value that, after
newline trimming, is not a base-10 integer, processing key `mastercount` (resp.
`workercount`) of resource `R` returns the processing error with message
`'R.mastercount', expected integer` (resp. `'R.workercount', expected integer`).  End to
end, if resource `default` contains `mastercount=abc` then, for every explicit
configuration, `GetClusterConfig` returns a processing error that names
`default.mastercount` or `default.workercount`, and it is the one that names
`default.mastercount` whenever the resource holds no `workercount` whose value fails to
parse. -/
theorem C8_parse_failure (c : ClusterConfig) (R v : String) (cm : ConfigMaps)
    (data : List (String × String)) (config : Option ClusterConfig) :
    (isBase10Integer (Trim v "\n") = false →
      (process c "mastercount" v R).2 =
          some ⟨"'" ++ R ++ ".mastercount', expected integer", ErrCode.ClusterConfigCode⟩ ∧
        (process c "workercount" v R).2 =
          some ⟨"'" ++ R ++ ".workercount', expected integer", ErrCode.ClusterConfigCode⟩) ∧
    (cm "default" = GetResult.ok (some data) → ("mastercount", "abc") ∈ data →
      ((GetClusterConfig config cm).2 =
          some ⟨"'default.mastercount', expected integer", ErrCode.ClusterConfigCode⟩ ∨
        (GetClusterConfig config cm).2 =
          some ⟨"'default.workercount', expected integer", ErrCode.ClusterConfigCode⟩) ∧
      ((∀ kv ∈ data, kv.1 = "workercount" → (Atoi (Trim kv.2 "\n")).2 = none) →
        (GetClusterConfig config cm).2 =
          some ⟨"'default.mastercount', expected integer", ErrCode.ClusterConfigCode⟩)) := by
  refine ⟨process_count_error c R v, ?_⟩
  intro hget hmem
  have hrd : readConfig Defaultname defaultConfig allowMissing cm =
      processAll defaultConfig Defaultname data :=
    readConfig_ok_some Defaultname defaultConfig allowMissing cm data hget
  obtain ⟨kv, hkv, herr, hne⟩ := processAll_error_mem Defaultname data defaultConfig
    ⟨("mastercount", "abc"), hmem, by decide⟩
  have hcases : ∀ w : String,
      (process defaultConfig "mastercount" w Defaultname).2 = none ∨
        (process defaultConfig "mastercount" w Defaultname).2 =
          some ⟨"'default.mastercount', expected integer", ErrCode.ClusterConfigCode⟩ := by
    intro w
    rw [process_snd, if_pos rfl, getInt_snd]
    split_ifs
    · exact Or.inl rfl
    · exact Or.inr (by decide)
  have hcasesW : ∀ w : String,
      (process defaultConfig "workercount" w Defaultname).2 =
        if (Atoi (Trim w "\n")).2 = none then none
        else some ⟨"'default.workercount', expected integer", ErrCode.ClusterConfigCode⟩ := by
    intro w
    rw [process_snd, if_neg (by decide), if_pos rfl, getInt_snd]
    split_ifs
    · rfl
    · decide
  have hG : (GetClusterConfig config cm).2 = (process defaultConfig kv.1 kv.2 Defaultname).2 := by
    cases he : (process defaultConfig kv.1 kv.2 Defaultname).2 with
    | none => exact absurd he hne
    | some e =>
      apply GetClusterConfig_of_default_err
      rw [hrd, herr, he]
  rw [hG]
  obtain ⟨k, w⟩ := kv
  by_cases hk1 : k = "mastercount"
  · subst hk1
    have hM : (process defaultConfig "mastercount" w Defaultname).2 =
        some ⟨"'default.mastercount', expected integer", ErrCode.ClusterConfigCode⟩ := by
      rcases hcases w with h0 | h0
      · exact absurd h0 hne
      · exact h0
    exact ⟨Or.inl hM, fun _ => hM⟩
  · by_cases hk2 : k = "workercount"
    · subst hk2
      simp only at hne ⊢
      rw [hcasesW w] at hne ⊢
      by_cases hp : (Atoi (Trim w "\n")).2 = none
      · rw [if_pos hp] at hne
        exact absurd rfl hne
      · rw [if_neg hp]
        exact ⟨Or.inr rfl, fun hall => absurd (hall ("workercount", w) hkv rfl) hp⟩
    · exfalso
      apply hne
      rw [process_snd, if_neg hk1, if_neg hk2]

theorem C8_parse_failure_witness :
    (isBase10Integer (Trim "abc\n" "\n") = false ∧
      (process defaultConfig "mastercount" "abc\n" "foo").2 =
          some ⟨"'" ++ "foo" ++ ".mastercount', expected integer", ErrCode.ClusterConfigCode⟩) ∧
    (abcStore "default" = GetResult.ok (some [("mastercount", "abc")]) ∧
      (GetClusterConfig (some fooNine) abcStore).2 =
          some ⟨"'default.mastercount', expected integer", ErrCode.ClusterConfigCode⟩) :=
  ⟨⟨by decide,
      ((C8_parse_failure defaultConfig "foo" "abc\n" abcStore [("mastercount", "abc")]
        (some fooNine)).1 (by decide)).1⟩,
    ⟨by decide,
      ((C8_parse_failure defaultConfig "foo" "abc\n" abcStore [("mastercount", "abc")]
        (some fooNine)).2 (by decide) (by decide)).2 (by decide)⟩⟩

/-- C9 (counterexample): for the key `metrics.carbon` and the value made of a newline, `x`
and a newline, removing the trailing newlines only would leave the leading newline in
place, but `process` stores `x`: the leading newline is not kept. -/
theorem C9_leading_newline_removed :
    trimTrailingNewlines "\nx\n" = "\nx" ∧
      (process defaultConfig "metrics.carbon" "\nx\n" "default").1.Metrics.Carbon = "x" ∧
      (process defaultConfig "metrics.carbon" "\nx\n" "default").1.Metrics.Carbon ≠
        trimTrailingNewlines "\nx\n" := by
  decide

/-- C9 (amended): for each of the seven string keys and every value `v`, `process` stores
in the corresponding field exactly `v` with its leading and trailing newline characters
removed (`v` is the stored value between a block of leading and a block of trailing
newlines, and the stored value neither starts nor ends with a newline), changes no other
field and returns no error. -/
theorem C9_string_keys_trimmed (c : ClusterConfig) (v m : String) :
    (∃ a b : List Char, v.data = a ++ (Trim v "\n").data ++ b ∧
      (∀ x ∈ a, x = '\n') ∧ (∀ x ∈ b, x = '\n') ∧
      (Trim v "\n").data.head? ≠ some '\n' ∧ (Trim v "\n").data.getLast? ≠ some '\n') ∧
    process c "sparkmasterconfig" v m = ({ c with SparkMasterConfig := Trim v "\n" }, none) ∧
    process c "sparkworkerconfig" v m = ({ c with SparkWorkerConfig := Trim v "\n" }, none) ∧
    process c "metrics.enable" v m =
      ({ c with Metrics := { c.Metrics with Enable := Trim v "\n" } }, none) ∧
    process c "metrics.carbon" v m =
      ({ c with Metrics := { c.Metrics with Carbon := Trim v "\n" } }, none) ∧
    process c "metrics.graphite" v m =
      ({ c with Metrics := { c.Metrics with Graphite := Trim v "\n" } }, none) ∧
    process c "scorpionstare.enable" v m =
      ({ c with ScorpionStare := { c.ScorpionStare with Enable := Trim v "\n" } }, none) ∧
    process c "scorpionstare.image" v m =
      ({ c with ScorpionStare := { c.ScorpionStare with Image := Trim v "\n" } }, none) := by
  refine ⟨Trim_newline_spec v, ?_, ?_, ?_, ?_, ?_, ?_, ?_⟩ <;> simp [process]

/-- C10: idempotence of the explicit-override merge.  For every base configuration and every
override whose `MasterCount` and `WorkerCount` are 0 and whose string fields other than
`Name` are all empty, `assignConfig` returns the base configuration unchanged in every
field, `Name` included, whatever the override's `Name` is. -/
theorem C10_assign_unset_is_identity (base src : ClusterConfig)
    (h1 : src.MasterCount = 0) (h2 : src.WorkerCount = 0)
    (h3 : src.SparkMasterConfig = "") (h4 : src.SparkWorkerConfig = "")
    (h5 : src.Metrics.Enable = "") (h6 : src.Metrics.Carbon = "")
    (h7 : src.Metrics.Graphite = "") (h8 : src.ScorpionStare.Enable = "")
    (h9 : src.ScorpionStare.Image = "") :
    assignConfig base src = base := by
  rw [assignConfig_eq]
  simp [h1, h2, h3, h4, h5, h6, h7, h8, h9]

theorem C10_assign_unset_is_identity_witness :
    assignConfig fooNine (named "other") = fooNine :=
  C10_assign_unset_is_identity fooNine (named "other") (by decide) (by decide) (by decide)
    (by decide) (by decide) (by decide) (by decide) (by decide) (by decide)

/-- C11: when fetching `default` fails with an error whose message does not contain
`not found`, `GetClusterConfig` returns a client-operation error carrying that same message
together with the untouched compiled-in configuration; the outcome is the same for every
explicit configuration and for every store that fails in this way on `default`: the named
resource is not fetched, the explicit configuration is not merged and validation is not
run. -/
theorem C11_client_error_on_default (cm cm1 : ConfigMaps) (config config1 : Option ClusterConfig)
    (msg : String) (hget : (cm "default").err = some msg)
    (hget1 : (cm1 "default").err = some msg)
    (hnf : containsStr msg "not found" = false) :
    GetClusterConfig config cm = (defaultConfig, some ⟨msg, ErrCode.ClientOperationCode⟩) ∧
      GetClusterConfig config1 cm1 = GetClusterConfig config cm := by
  have key : ∀ (m : ConfigMaps) (cfg : Option ClusterConfig),
      (m "default").err = some msg →
      GetClusterConfig cfg m = (defaultConfig, some ⟨msg, ErrCode.ClientOperationCode⟩) := by
    intro m cfg hm
    have hr : readConfig Defaultname defaultConfig allowMissing m =
        (defaultConfig, some ⟨msg, ErrCode.ClientOperationCode⟩) :=
      readConfig_failed_other Defaultname defaultConfig allowMissing m msg hm hnf
    have hl : loadConfig (targetName cfg) m =
        (defaultConfig, some ⟨msg, ErrCode.ClientOperationCode⟩) := by
      unfold loadConfig
      rw [hr]
    rw [GetClusterConfig_of_load_err cfg m _ (by rw [hl]), hl]
  exact ⟨key cm config hget, by rw [key cm config hget, key cm1 config1 hget1]⟩

theorem C11_client_error_on_default_witness :
    GetClusterConfig (some fooNine) downStore =
        (defaultConfig, some ⟨"connection refused", ErrCode.ClientOperationCode⟩) ∧
      GetClusterConfig none downStore = GetClusterConfig (some fooNine) downStore :=
  C11_client_error_on_default downStore downStore (some fooNine) none "connection refused"
    (by decide) (by decide) (by decide)

/-- C12: unrecognized keys are ignored.  For every configuration, resource name and
value, and every key that is not one of the nine recognized keys, `process` returns no
error and the configuration unchanged; hence two stores whose resources differ only in
unrecognized keys give the same result of `GetClusterConfig`. -/
theorem C12_unrecognized_ignored (c : ClusterConfig) (k v name : String)
    (cm cm1 : ConfigMaps) (config : Option ClusterConfig) :
    (k ∉ recognizedKeys → process c k v name = (c, none)) ∧
    ((∀ n, stripUnrecognized (cm1 n) = stripUnrecognized (cm n)) →
      GetClusterConfig config cm1 = GetClusterConfig config cm) := by
  refine ⟨process_unrecognized c k v name, ?_⟩
  intro h
  rw [GetClusterConfig_strip config cm1, GetClusterConfig_strip config cm]
  have hf : (fun n => stripUnrecognized (cm1 n)) = fun n => stripUnrecognized (cm n) :=
    funext h
  rw [hf]

theorem C12_unrecognized_ignored_witness :
    ("sparkimage" ∉ recognizedKeys ∧
      process fooNine "sparkimage" "img" "default" = (fooNine, none)) ∧
    GetClusterConfig (some fooNine) fooStoreExtra = GetClusterConfig (some fooNine) fooStore :=
  ⟨⟨by decide,
      (C12_unrecognized_ignored fooNine "sparkimage" "img" "default" fooStore fooStoreExtra
        (some fooNine)).1 (by decide)⟩,
    (C12_unrecognized_ignored fooNine "sparkimage" "img" "default" fooStore fooStoreExtra
      (some fooNine)).2 (fun n => by
        by_cases h1 : n = "default"
        · subst h1
          decide
        · by_cases h2 : n = "foo"
          · subst h2
            decide
          · simp [fooStore, fooStoreExtra, h1, h2, stripUnrecognized])⟩

/-- C13: layer 2 is skipped for the names `""` and `default`.  For every store and every
explicit configuration, `GetClusterConfig` with the `Name` set to `default` returns the
same configuration and the same error as with the `Name` set to `""`; when all the other
fields are zero or empty it returns the same as with no explicit configuration; and a
missing `default` resource is tolerated when the explicit configuration names `default`:
the not-found error of `Get` is dropped, the outcome being the one for the same config map
returned without an error, which is the compiled-in configuration and no error when no data
comes with the not-found error. -/
theorem C13_default_name_skips_layer2 (cm : ConfigMaps) (c : ClusterConfig) :
    GetClusterConfig (some { c with Name := "default" }) cm =
        GetClusterConfig (some { c with Name := "" }) cm ∧
    (c.MasterCount = 0 → c.WorkerCount = 0 → c.SparkMasterConfig = "" →
      c.SparkWorkerConfig = "" → c.Metrics.Enable = "" → c.Metrics.Carbon = "" →
      c.Metrics.Graphite = "" → c.ScorpionStare.Enable = "" → c.ScorpionStare.Image = "" →
      GetClusterConfig (some { c with Name := "default" }) cm = GetClusterConfig none cm) ∧
    (∀ msg, (cm "default").err = some msg → containsStr msg "not found" = true →
      GetClusterConfig (some { c with Name := "default" }) cm =
          GetClusterConfig (some { c with Name := "default" })
            (fun n => if n = "default" then GetResult.ok (cm n).cmap else cm n) ∧
        ((cm "default").cmap = none ∨ (cm "default").cmap = some [] →
          GetClusterConfig (some (named "default")) cm = (defaultConfig, none))) := by
  have h1 : GetClusterConfig (some { c with Name := "default" }) cm =
      GetClusterConfig (some { c with Name := "" }) cm := by
    rw [GetClusterConfig_some_eq, GetClusterConfig_some_eq]
    simp only [loadConfig_default_eq_empty, assignConfig_Name_irrelevant]
  have hzero : ∀ src : ClusterConfig, src.MasterCount = 0 → src.WorkerCount = 0 →
      src.SparkMasterConfig = "" → src.SparkWorkerConfig = "" → src.Metrics.Enable = "" →
      src.Metrics.Carbon = "" → src.Metrics.Graphite = "" → src.ScorpionStare.Enable = "" →
      src.ScorpionStare.Image = "" →
      GetClusterConfig (some { src with Name := "default" }) cm = GetClusterConfig none cm := by
    intro src a1 a2 a3 a4 a5 a6 a7 a8 a9
    have hid : ∀ res, assignConfig res { src with Name := "default" } = res := by
      intro res
      rw [assignConfig_eq]
      simp [a1, a2, a3, a4, a5, a6, a7, a8, a9]
    rw [GetClusterConfig_some_eq, GetClusterConfig_none_eq]
    simp only [loadConfig_default_eq_empty, hid]
  refine ⟨h1, hzero c, ?_⟩
  intro msg herr hnf
  constructor
  · rw [GetClusterConfig_some_eq, GetClusterConfig_some_eq]
    simp only [loadConfig_default_tolerates cm msg herr hnf]
  · intro hdata
    have hn : GetClusterConfig (some (named "default")) cm = GetClusterConfig none cm :=
      hzero (named "default") rfl rfl rfl rfl rfl rfl rfl rfl rfl
    rw [hn]
    have hr := readConfig_failed_notFound_allow Defaultname defaultConfig cm msg herr hnf hdata
    have hl : loadConfig (targetName none) cm = (defaultConfig, none) := by
      simp [loadConfig, hr, targetName]
    rw [GetClusterConfig_of_load_ok none cm (by rw [hl]), hl]
    simp only [applyExplicit]
    rfl

theorem C13_default_name_skips_layer2_witness :
    GetClusterConfig (some { named "foo" with Name := "default" }) fooStore =
        GetClusterConfig none fooStore ∧
      GetClusterConfig (some { fooNine with Name := "default" }) staleStore =
        GetClusterConfig (some { fooNine with Name := "default" })
          (fun n => if n = "default" then GetResult.ok (staleStore n).cmap else staleStore n) ∧
      (GetClusterConfig (some { fooNine with Name := "default" }) staleStore).2 = none ∧
      GetClusterConfig (some (named "default")) emptyStore = (defaultConfig, none) :=
  ⟨(C13_default_name_skips_layer2 fooStore (named "foo")).2.1 (by decide) (by decide)
      (by decide) (by decide) (by decide) (by decide) (by decide) (by decide) (by decide),
    ((C13_default_name_skips_layer2 staleStore fooNine).2.2
      "configmaps \"default\" not found" (by decide) (by decide)).1,
    by decide,
    ((C13_default_name_skips_layer2 emptyStore (named "foo")).2.2
      "configmaps \"default\" not found" (by decide) (by decide)).2 (by decide)⟩

/-- C14: integer parsing succeeds on well-formed input.  For every integer `n`
representable as a machine `int` and every `k`, processing key `mastercount` (resp.
`workercount`) with the value made of the base-10 representation of `n` followed by `k`
newline characters sets `MasterCount` (resp. `WorkerCount`) to `n`, returns no error and
changes no other field. -/
theorem C14_integer_parsing (config : ClusterConfig) (R : String) (n : Int) (k : Nat)
    (hlo : -(2 : Int) ^ (IntSize - 1) ≤ n) (hhi : n < (2 : Int) ^ (IntSize - 1)) :
    process config "mastercount" ⟨(decimalRepr n).data ++ List.replicate k '\n'⟩ R =
        ({ config with MasterCount := n }, none) ∧
      process config "workercount" ⟨(decimalRepr n).data ++ List.replicate k '\n'⟩ R =
        ({ config with WorkerCount := n }, none) := by
  constructor
  · unfold process
    rw [if_pos rfl]
    simp only [getInt_decimalRepr n k _ hlo hhi]
  · unfold process
    rw [if_neg (by decide), if_pos rfl]
    simp only [getInt_decimalRepr n k _ hlo hhi]

theorem C14_integer_parsing_witness :
    (⟨(decimalRepr (-42)).data ++ List.replicate 2 '\n'⟩ : String) = "-42\n\n" ∧
      process defaultConfig "mastercount"
          ⟨(decimalRepr (-42)).data ++ List.replicate 2 '\n'⟩ "default" =
        ({ defaultConfig with MasterCount := -42 }, none) :=
  ⟨by decide,
    (C14_integer_parsing defaultConfig "default" (-42) 2 (by decide) (by decide)).1⟩

/-- C15: the `Name` of the configuration returned by `GetClusterConfig` is always
`default`, the `Name` of the compiled-in configuration, for every store and every optional
explicit configuration, on success and on error alike: neither `process` nor `assignConfig`
writes `Name`. -/
theorem C15_result_name_is_default (config : Option ClusterConfig) (cm : ConfigMaps) :
    (GetClusterConfig config cm).1.Name = "default" ∧
      defaultConfig.Name = "default" ∧
      (∀ (c : ClusterConfig) (k v m : String), (process c k v m).1.Name = c.Name) ∧
      (∀ res src : ClusterConfig, (assignConfig res src).Name = res.Name) := by
  refine ⟨?_, rfl, process_Name, assignConfig_Name⟩
  have hl := loadConfig_Name (targetName config) cm
  have hd : defaultConfig.Name = "default" := rfl
  rw [hd] at hl
  cases he : (loadConfig (targetName config) cm).2 with
  | some e =>
    rw [GetClusterConfig_of_load_err config cm e he]
    exact hl
  | none =>
    rw [GetClusterConfig_of_load_ok config cm he]
    cases config with
    | none => exact hl
    | some c =>
      simp only [applyExplicit]
      rw [assignConfig_Name]
      exact hl

/-- C16: key-order independence within one resource.  For every starting configuration
and every resource data with pairwise distinct keys in which every `mastercount` and
`workercount` value parses, the loop of `readConfig` over the pairs in any two orders
yields the same configuration and no error. -/
theorem C16_key_order_independent (res : ClusterConfig) (name : String)
    (data data1 : List (String × String)) (hperm : data.Perm data1)
    (hnd : (data.map Prod.fst).Nodup)
    (hparse : ∀ kv ∈ data, kv.1 = "mastercount" ∨ kv.1 = "workercount" →
      (Atoi (Trim kv.2 "\n")).2 = none) :
    processAll res name data1 = processAll res name data ∧
      (processAll res name data).2 = none := by
  have hnd1 : (data1.map Prod.fst).Nodup := (hperm.map Prod.fst).nodup_iff.1 hnd
  have hparse1 : ∀ kv ∈ data1, kv.1 = "mastercount" ∨ kv.1 = "workercount" →
      (Atoi (Trim kv.2 "\n")).2 = none :=
    fun kv h => hparse kv (hperm.mem_iff.2 h)
  obtain ⟨e0, f0, _⟩ := processAll_ok name data res (process_ok_of_parse name data hparse) hnd
  obtain ⟨e1, f1, _⟩ :=
    processAll_ok name data1 res (process_ok_of_parse name data1 hparse1) hnd1
  refine ⟨?_, e0⟩
  apply Prod.ext
  · apply config_ext_fieldOf
    · rw [processAll_Name, processAll_Name]
    · intro k _
      by_cases hk : k ∈ data.map Prod.fst
      · obtain ⟨kv, hmem, hkv⟩ := List.mem_map.1 hk
        subst hkv
        rw [f0 kv hmem, f1 kv (hperm.mem_iff.1 hmem)]
      · have hk1 : k ∉ data1.map Prod.fst := fun h => hk ((hperm.map Prod.fst).mem_iff.2 h)
        rw [processAll_frame name k data res hk, processAll_frame name k data1 res hk1]
  · rw [e0, e1]

theorem C16_key_order_independent_witness :
    processAll defaultConfig "foo"
        [("metrics.carbon", "c\n"), ("mastercount", "1"), ("workercount", "4\n")] =
      processAll defaultConfig "foo"
        [("workercount", "4\n"), ("metrics.carbon", "c\n"), ("mastercount", "1")] ∧
    (processAll defaultConfig "foo"
        [("workercount", "4\n"), ("metrics.carbon", "c\n"), ("mastercount", "1")]).2 = none :=
  C16_key_order_independent defaultConfig "foo"
    [("workercount", "4\n"), ("metrics.carbon", "c\n"), ("mastercount", "1")]
    [("metrics.carbon", "c\n"), ("mastercount", "1"), ("workercount", "4\n")]
    (by decide) (by decide) (by decide)

/-- C17: effect of the explicit configuration on validity.  For every store whose stored
layers load without error into a configuration with `MasterCount = 1` and
`WorkerCount ≥ 1`, and every explicit configuration, `GetClusterConfig` returns an error if
and only if the explicit `MasterCount` is neither 0 nor 1 or the explicit `WorkerCount` is
negative; in particular an explicit `MasterCount` or `WorkerCount` of 0 causes no
validation error. -/
theorem C17_override_validity (cm : ConfigMaps) (c : ClusterConfig)
    (hl : (loadConfig c.Name cm).2 = none)
    (hm : (loadConfig c.Name cm).1.MasterCount = 1)
    (hw : 1 ≤ (loadConfig c.Name cm).1.WorkerCount) :
    ((GetClusterConfig (some c) cm).2 ≠ none ↔
      (c.MasterCount ≠ 0 ∧ c.MasterCount ≠ 1) ∨ c.WorkerCount < 0) ∧
    (c.MasterCount = 0 → c.WorkerCount = 0 → (GetClusterConfig (some c) cm).2 = none) := by
  have hg := GetClusterConfig_of_load_ok (some c) cm hl
  have hiff : (GetClusterConfig (some c) cm).2 = none ↔
      ¬ ((c.MasterCount ≠ 0 ∧ c.MasterCount ≠ 1) ∨ c.WorkerCount < 0) := by
    rw [hg]
    simp only [applyExplicit, targetName, checkConfiguration_eq_none_iff, assignConfig_eq]
    have hm1 : (loadConfig c.Name cm).1.MasterCount = 1 := hm
    by_cases a : c.MasterCount = 0 <;> by_cases b : c.WorkerCount = 0 <;>
      simp [a, b, hm1] <;> omega
  refine ⟨?_, ?_⟩
  · rw [ne_eq, hiff, not_not]
  · intro a b
    rw [hiff]
    simp [a, b]

theorem C17_override_validity_witness :
    ((GetClusterConfig (some { fooNine with MasterCount := 2 }) fooStore).2 ≠ none ↔
      ((2 : Int) ≠ 0 ∧ (2 : Int) ≠ 1) ∨ (9 : Int) < 0) ∧
    (GetClusterConfig (some { fooNine with MasterCount := 2 }) fooStore).2 ≠ none :=
  ⟨(C17_override_validity fooStore { fooNine with MasterCount := 2 } (by decide) (by decide)
      (by decide)).1, by decide⟩

/-- C18: the explicit-override merge composes associatively.  For every base configuration
and explicit configurations `a` and `b`, applying `assignConfig` with `a` and then with `b`
to the base yields the same configuration as applying `assignConfig` once with the
configuration obtained by merging `b` onto `a`. -/
theorem C18_assign_assoc (base a b : ClusterConfig) :
    assignConfig (assignConfig base a) b = assignConfig base (assignConfig a b) := by
  rw [assignConfig_eq (assignConfig base a) b, assignConfig_eq base (assignConfig a b),
    assignConfig_eq base a, assignConfig_eq a b]
  simp only [ClusterConfig.mk.injEq, MetricsConfig.mk.injEq, ScorpionStareConfig.mk.injEq]
  refine ⟨?_, ?_, ?_, ?_, ?_, ⟨?_, ?_, ?_⟩, ?_, ?_⟩ <;>
    first | trivial | (split_ifs <;> rfl)

end Clusters
